import Mathlib

/-!
# ginapi: authentication, authorization and account handlers

A shallow embedding of the request pipeline of the service (`routes`, `middleware`,
`controllers`, `models`, `db`) together with the properties of its access-control rules.

Go `int` values are mathematical integers (`Int`); the only place where the 64-bit width
matters is `strconv.Atoi`, which rejects values outside the `int` range.  Strings are
`String`; instants are Unix seconds (`Int`).
-/

set_option autoImplicit false

namespace GinApi

/-! ## strconv -/

/-- The unsigned digit loop of `strconv.ParseUint` in base 10: every character must be one of
`0`..`9`; the accumulated value is returned. An offending character is a syntax error. -/
def parseDigits : List Char → Nat → Option Nat
  | [], acc => some acc
  | c :: cs, acc =>
    if c.isDigit then parseDigits cs (acc * 10 + (c.toNat - 48)) else none

/-- Go `strconv.Atoi`: an optional sign (`+` or `-`), then at least one decimal digit and
nothing else; the value must fit the 64-bit `int`. `none` stands for the returned error. -/
def Atoi (s : String) : Option Int :=
  match s.data with
  | [] => none
  | c :: cs =>
    let ds := if c = '-' ∨ c = '+' then cs else c :: cs
    if ds = [] then none
    else
      match parseDigits ds 0 with
      | none => none
      | some un =>
        if c = '-' then (if un ≤ 2 ^ 63 then some (-(un : Int)) else none)
        else (if un < 2 ^ 63 then some (un : Int) else none)

/-- Go `strconv.Itoa`: the decimal text of an integer, with a leading `-` when negative and no
leading zeros. -/
def Itoa (n : Int) : String :=
  match n with
  | Int.ofNat m => String.mk (Nat.toDigits 10 m)
  | Int.negSucc m => String.mk ('-' :: Nat.toDigits 10 (m + 1))

/-- Go `strings.TrimPrefix`: `s` without the leading `pre` when `s` starts with it, otherwise
`s` unchanged. -/
def TrimPrefix (s pre : String) : String :=
  if pre.data.isPrefixOf s.data then String.mk (s.data.drop pre.data.length) else s

/-! ## models -/

/-- The account record `models.User`; `Password` holds the stored hash. Instants are Unix
seconds. -/
structure User where
  ID : Int
  Username : String
  FirstName : String
  LastName : String
  Email : String
  Password : String
  Role : String
  SessionID : String
  SessionToken : String
  RefreshToken : String
  CreatedAt : Int
  UpdatedAt : Int
deriving DecidableEq, Repr

/-- The body of a signup call, `models.SignupRequest`. -/
structure SignupRequest where
  Username : String
  FirstName : String
  LastName : String
  Email : String
  Password : String
  Role : String
deriving DecidableEq, Repr

/-- The body of a login call, `models.LoginRequest`. -/
structure LoginRequest where
  Email : String
  Password : String
deriving DecidableEq, Repr

/-- The body of an update call, `models.UserUpdateRequest`. -/
structure UserUpdateRequest where
  Username : String
  FirstName : String
  LastName : String
  Email : String
  Role : String
deriving DecidableEq, Repr

/-- The session claims `models.JWTClaims`: the four identity fields and the time fields of the
embedded `jwt.StandardClaims` (zero means absent). -/
structure JWTClaims where
  UserID : String
  Email : String
  Username : String
  Role : String
  ExpiresAt : Int
  IssuedAt : Int
  NotBefore : Int
deriving DecidableEq, Repr

/-- The payload of a `models.SuccessResponse`. -/
inductive Data where
  | none
  | user (u : User)
  | users (us : List User)
deriving DecidableEq, Repr

/-- A response body: `models.ErrorResponse`, `models.SuccessResponse`, `models.AuthResponse`,
the health document, or nothing. -/
inductive Body where
  | empty
  | error (err msg : String)
  | success (msg : String) (data : Data)
  | auth (token refreshToken : String) (user : User) (msg : String)
  | health
deriving DecidableEq, Repr

/-- What `c.JSON(status, body)` writes. -/
structure Response where
  status : Nat
  body : Body
deriving DecidableEq, Repr

/-! ## gin context -/

/-- A value stored under a context key (`interface{}`): a string, an int, or anything else. -/
inductive CtxVal where
  | str (s : String)
  | int (n : Int)
  | other
deriving DecidableEq, Repr

/-- The per-request `gin.Context`: the route parameters and the key/value store. -/
structure Context where
  Params : List (String × String)
  Keys : List (String × CtxVal)
deriving DecidableEq, Repr

/-- The call `c.Param(name)`: the route parameter, or the empty string. -/
def Context.Param (c : Context) (name : String) : String :=
  (c.Params.lookup name).getD ""

/-- The call `c.Set(key, value)`. -/
def Context.Set (c : Context) (key : String) (v : CtxVal) : Context :=
  { c with Keys := (key, v) :: c.Keys }

/-- The call `c.Get(key)`: the value last stored under the key, if any. -/
def Context.Get (c : Context) (key : String) : Option CtxVal :=
  c.Keys.lookup key

/-- An incoming request: method, path segments, headers and the raw body. -/
structure Request where
  method : String
  path : List String
  headers : List (String × String)
  body : String
deriving DecidableEq, Repr

/-- The call `c.GetHeader(name)`: the header value, or the empty string when absent. -/
def Request.GetHeader (r : Request) (name : String) : String :=
  (r.headers.lookup name).getD ""

/-! ## db: the users table -/

/-- A value bound to a statement placeholder. -/
inductive SqlArg where
  | str (s : String)
  | int (n : Int)
  | time (t : Int)
deriving DecidableEq, Repr

/-- A statement sent to the storage: its text and its positional arguments. -/
structure Stmt where
  sql : String
  args : List SqlArg
deriving DecidableEq, Repr

/-- The storage behind `db.GetDB()`: the rows of table `users` (created by
`createUsersTable`), the next value of the `SERIAL` id, whether the connection answers, and
whether the driver reports affected rows. -/
structure Db where
  rows : List User
  nextID : Int
  up : Bool
  reportsRows : Bool
deriving DecidableEq, Repr

/-- The column widths of `createUsersTable`: `VARCHAR(255)` everywhere, `VARCHAR(50)` for the
role. -/
def fitsColumns (u : User) : Bool :=
  decide (u.Username.length ≤ 255) && decide (u.FirstName.length ≤ 255) &&
  decide (u.LastName.length ≤ 255) && decide (u.Email.length ≤ 255) &&
  decide (u.Password.length ≤ 255) && decide (u.Role.length ≤ 50)

/-- The key constraints of `createUsersTable`: `id` is the primary key, `username` and `email`
are `UNIQUE`. -/
def uniqueKeys (rows : List User) : Bool :=
  decide ((rows.map (fun r => r.ID)).Nodup) && decide ((rows.map (fun r => r.Username)).Nodup) &&
  decide ((rows.map (fun r => r.Email)).Nodup)

/-- The text of the duplicate check of `UserSignup`. -/
def sqlCount : String := "SELECT COUNT(*) FROM users WHERE email = $1 OR username = $2"

/-- The duplicate check `SELECT COUNT(*) ... WHERE email = $1 OR username = $2`; `none` is a
storage error. -/
def Db.countByEmailOrUsername (db : Db) (email username : String) : Option Int :=
  if db.up then
    some ((db.rows.countP (fun r => decide (r.Email = email) || decide (r.Username = username)) : Nat) : Int)
  else none

/-- The two ways `QueryRow(...).Scan` fails: `sql.ErrNoRows`, or any other storage error. -/
inductive QueryErr where
  | ErrNoRows
  | driver
deriving DecidableEq, Repr

/-- The text of the account lookup of `UserLogin`. -/
def sqlSelectByEmail : String :=
  "SELECT id, username, first_name, last_name, email, password, role, created_at, updated_at FROM users WHERE email = $1"

/-- The lookup `SELECT ... FROM users WHERE email = $1` scanned into a `User`. -/
def Db.selectByEmail (db : Db) (email : String) : Except QueryErr User :=
  if db.up then
    match db.rows.find? (fun r => decide (r.Email = email)) with
    | some r => .ok { r with SessionID := "", SessionToken := "", RefreshToken := "" }
    | none => .error .ErrNoRows
  else .error .driver

/-- The text of the account lookup of `GetUserByID` and `GetProfile`. -/
def sqlSelectByID : String :=
  "SELECT id, username, first_name, last_name, email, role, created_at, updated_at FROM users WHERE id = $1"

/-- The lookup `SELECT ... FROM users WHERE id = $1` scanned into a `User`; the password column
is not selected. -/
def Db.selectByID (db : Db) (uid : Int) : Except QueryErr User :=
  if db.up then
    match db.rows.find? (fun r => decide (r.ID = uid)) with
    | some r =>
      .ok { r with Password := "", SessionID := "", SessionToken := "", RefreshToken := "" }
    | none => .error .ErrNoRows
  else .error .driver

/-- The text of the listing of `GetAllUsers`. -/
def sqlSelectAll : String :=
  "SELECT id, username, first_name, last_name, email, role, created_at, updated_at FROM users ORDER BY created_at DESC"

/-- The listing `SELECT ... FROM users ORDER BY created_at DESC`; the password column is not
selected. -/
def Db.selectAll (db : Db) : Option (List User) :=
  if db.up then
    some ((db.rows.insertionSort (fun a b => b.CreatedAt ≤ a.CreatedAt)).map (fun r =>
      { r with Password := "", SessionID := "", SessionToken := "", RefreshToken := "" }))
  else none

/-- The text of the insert of `UserSignup`. -/
def sqlInsert : String :=
  "INSERT INTO users (username, first_name, last_name, email, password, role, created_at, updated_at) VALUES ($1, $2, $3, $4, $5, $6, $7, $8) RETURNING id"

/-- The insert `INSERT INTO users (...) VALUES (...) RETURNING id`: the new row takes the next
serial id; the insert fails when the storage is down or a table constraint is violated (the
serial value is consumed all the same). -/
def Db.insertUser (db : Db) (username firstName lastName email password role : String)
    (createdAt updatedAt : Int) : Option Int × Db :=
  if db.up then
    let row : User :=
      { ID := db.nextID, Username := username, FirstName := firstName, LastName := lastName,
        Email := email, Password := password, Role := role, SessionID := "",
        SessionToken := "", RefreshToken := "", CreatedAt := createdAt, UpdatedAt := updatedAt }
    if fitsColumns row && uniqueKeys (db.rows ++ [row]) then
      (some db.nextID, { db with rows := db.rows ++ [row], nextID := db.nextID + 1 })
    else (none, { db with nextID := db.nextID + 1 })
  else (none, db)

/-- One `column = $k` assignment of the update statement, applied to a row with the bound
value; `none` when the column does not take that kind of value. -/
def applySet (u : User) (col : String) (v : SqlArg) : Option User :=
  match v with
  | .time t => if col = "updated_at" then some { u with UpdatedAt := t } else none
  | .str s =>
    if col = "username" then some { u with Username := s }
    else if col = "first_name" then some { u with FirstName := s }
    else if col = "last_name" then some { u with LastName := s }
    else if col = "email" then some { u with Email := s }
    else if col = "role" then some { u with Role := s }
    else none
  | .int _ => none

/-- All assignments of an update statement applied to one row, each taking the argument its
placeholder names. -/
def applySets (args : List SqlArg) : List (String × Nat) → User → Option User
  | [], u => some u
  | (col, k) :: rest, u =>
    match args.get? (k - 1) with
    | none => none
    | some v =>
      match applySet u col v with
      | none => none
      | some u1 => applySets args rest u1

/-- The statement `UPDATE users SET <assignments> WHERE id = $n` run with its arguments: every
row whose id is the `$n` argument is rewritten; the result is the number of such rows. It
fails when the storage is down, an argument is missing or ill-typed, or a table constraint is
violated by the rewritten rows. -/
def Db.ExecUpdate (db : Db) (setParts : List (String × Nat)) (whereIdx : Nat)
    (args : List SqlArg) : Option (Int × Db) :=
  if db.up then
    match args.get? (whereIdx - 1) with
    | some (.int uid) =>
      let rewritten :=
        db.rows.map (fun r => if r.ID = uid then applySets args setParts r else some r)
      if rewritten.all Option.isSome then
        let rows1 := rewritten.filterMap (fun o => o)
        if rows1.all fitsColumns && uniqueKeys rows1 then
          some (((db.rows.countP (fun r => decide (r.ID = uid)) : Nat) : Int),
            { db with rows := rows1 })
        else none
      else none
    | _ => none
  else none

/-- The text of the delete of `DeleteUser`. -/
def sqlDelete : String := "DELETE FROM users WHERE id = $1"

/-- The statement `DELETE FROM users WHERE id = $1`: the rows with that id are removed; the
result is their number. -/
def Db.ExecDelete (db : Db) (uid : Int) : Option (Int × Db) :=
  if db.up then
    some (((db.rows.countP (fun r => decide (r.ID = uid)) : Nat) : Int),
      { db with rows := db.rows.filter (fun r => decide (r.ID ≠ uid)) })
  else none

/-- The call `result.RowsAffected()`. -/
def Db.RowsAffected (db : Db) (n : Int) : Option Int :=
  if db.reportsRows then some n else none

/-! ## The token library and the process environment -/

/-- A value of a token payload: a text or an integer. -/
inductive JVal where
  | str (s : String)
  | num (n : Int)
deriving DecidableEq, Repr

/-- A token payload as a flat key/value object (`jwt.MapClaims`). -/
abbrev MapClaims := List (String × JVal)

/-- The payload written for a `models.JWTClaims` value: the four tagged fields, then the time
fields of the embedded standard claims, each left out when zero (`omitempty`). -/
def JWTClaims.toMap (c : JWTClaims) : MapClaims :=
  [("user_id", JVal.str c.UserID), ("email", JVal.str c.Email),
   ("username", JVal.str c.Username), ("role", JVal.str c.Role)]
  ++ (if c.ExpiresAt = 0 then [] else [("exp", JVal.num c.ExpiresAt)])
  ++ (if c.IssuedAt = 0 then [] else [("iat", JVal.num c.IssuedAt)])
  ++ (if c.NotBefore = 0 then [] else [("nbf", JVal.num c.NotBefore)])

/-- A text field read from a payload: absent keys leave the zero value, a value of the wrong
kind is a decoding error. -/
def strField (m : MapClaims) (k : String) : Option String :=
  match m.lookup k with
  | none => some ""
  | some (JVal.str s) => some s
  | some (JVal.num _) => none

/-- An integer field read from a payload: absent keys leave the zero value, a value of the
wrong kind is a decoding error. -/
def numField (m : MapClaims) (k : String) : Option Int :=
  match m.lookup k with
  | none => some 0
  | some (JVal.num n) => some n
  | some (JVal.str _) => none

/-- The payload decoded into a `models.JWTClaims` value; keys the struct does not declare (such
as `type`) are ignored. -/
def JWTClaims.ofMap (m : MapClaims) : Option JWTClaims :=
  match strField m "user_id", strField m "email", strField m "username", strField m "role",
    numField m "exp", numField m "iat", numField m "nbf" with
  | some uid, some email, some username, some role, some exp, some iat, some nbf =>
    some { UserID := uid, Email := email, Username := username, Role := role,
           ExpiresAt := exp, IssuedAt := iat, NotBefore := nbf }
  | _, _, _, _, _, _, _ => none

/-- The wire level of the token library (`github.com/golang-jwt/jwt/v4`), which is not part of
the sources and is taken as given: `SignedString alg claims key` is the compact signed text
(or an error), `Decode` splits and decodes a compact text into its header algorithm and
payload, `Verify text alg key` checks the signature part. -/
structure JwtLib where
  SignedString : String → MapClaims → String → Option String
  Decode : String → Option (String × MapClaims)
  Verify : String → String → String → Bool

/-- The test `token.Method.(*jwt.SigningMethodHMAC)`: the header algorithm is one of the
symmetric MAC methods. -/
def isHMAC (alg : String) : Bool :=
  decide (alg = "HS256") || decide (alg = "HS384") || decide (alg = "HS512")

/-- Modelled from the spec: `jwt.StandardClaims.Valid` of the token library, reached through
`JWTClaims.Valid`; the library is not part of the sources. A token is expired when
expires-at <= now; an issued-at or not-before in the future is rejected as well; a zero field
is not checked. -/
def JWTClaims.Valid (c : JWTClaims) (now : Int) : Bool :=
  (decide (c.ExpiresAt = 0) || decide (now < c.ExpiresAt)) &&
  (decide (c.IssuedAt = 0) || decide (c.IssuedAt ≤ now)) &&
  (decide (c.NotBefore = 0) || decide (c.NotBefore ≤ now))

/-- A parsed token, `jwt.Token`. -/
structure Token where
  Alg : String
  Claims : JWTClaims
  Valid : Bool
deriving DecidableEq, Repr

/-- Modelled from the spec: `jwt.ParseWithClaims` of the token library, which is not part of
the sources. The text is decoded into header and claims, the key function is asked for the
key, the claims are validated against the clock and the signature is verified; any failure is
an error (`none`), otherwise the token is returned marked valid. -/
def ParseWithClaims (lib : JwtLib) (now : Int) (tokenString : String)
    (keyFunc : String → Option String) : Option Token :=
  match lib.Decode tokenString with
  | none => none
  | some (alg, payload) =>
    match JWTClaims.ofMap payload with
    | none => none
    | some claims =>
      match keyFunc alg with
      | none => none
      | some key =>
        if claims.Valid now && lib.Verify tokenString alg key then
          some { Alg := alg, Claims := claims, Valid := true }
        else none

/-- What a request sees of the process: the `JWT_SECRET` variable, the token library, the
password hasher (`bcrypt.GenerateFromPassword` with this call's salt, and
`bcrypt.CompareHashAndPassword hash password` succeeding), the body binders behind
`c.ShouldBindJSON`, and the clock `time.Now()` in Unix seconds, read once per request. -/
structure Env where
  JWT_SECRET : String
  jwt : JwtLib
  GenerateFromPassword : String → Option String
  CompareHashAndPassword : String → String → Bool
  bindSignup : String → Option SignupRequest
  bindLogin : String → Option LoginRequest
  bindUpdate : String → Option UserUpdateRequest
  now : Int

/-- The helper `getJWTSecret`: the variable, or the default when it is empty. -/
def getJWTSecret (env : Env) : String :=
  if env.JWT_SECRET = "" then "your-secret-key" else env.JWT_SECRET

/-- The package variable `jwtSecret`. -/
def jwtSecret (env : Env) : String := getJWTSecret env

/-! ## middleware -/

/-- What a pipeline stage does with a request: write a response and abort, or hand the
(possibly extended) context to the next stage. -/
inductive Step where
  | abort (c : Context) (r : Response)
  | next (c : Context)
deriving DecidableEq, Repr

/-- The middleware `CORS`: a preflight request is answered at once, anything else goes on. -/
def CORS (_env : Env) (req : Request) (c : Context) : Step :=
  if req.method = "OPTIONS" then .abort c ⟨200, .empty⟩ else .next c

/-- The middlewares `Logger` and `gin.Recovery` on a request that does not fail: they pass the
request on unchanged. -/
def passThrough (_env : Env) (_req : Request) (c : Context) : Step := .next c

/-- The middleware `JWTAuth`. -/
def JWTAuth (env : Env) (req : Request) (c : Context) : Step :=
  let authHeader := req.GetHeader "Authorization"
  if authHeader = "" then
    .abort c ⟨401, .error "Authorization header missing" "Authorization header is required"⟩
  else
    let tokenString := TrimPrefix authHeader "Bearer "
    if tokenString = authHeader then
      .abort c ⟨401, .error "Invalid authorization format"
        "Authorization header must be in format 'Bearer <token>'"⟩
    else
      match ParseWithClaims env.jwt env.now tokenString
          (fun alg => if isHMAC alg then some (jwtSecret env) else none) with
      | none => .abort c ⟨401, .error "Invalid token" "Token validation failed"⟩
      | some token =>
        if token.Valid then
          .next ((((c.Set "user_id" (.str token.Claims.UserID)).Set "email"
            (.str token.Claims.Email)).Set "username" (.str token.Claims.Username)).Set "role"
            (.str token.Claims.Role))
        else
          .abort c ⟨401, .error "Invalid token claims" "Token claims validation failed"⟩

/-- The middleware `AdminOnly`. -/
def AdminOnly (_env : Env) (_req : Request) (c : Context) : Step :=
  match c.Get "role" with
  | none => .abort c ⟨403, .error "Forbidden" "Admin access required"⟩
  | some role =>
    if role ≠ CtxVal.str "admin" then .abort c ⟨403, .error "Forbidden" "Admin access required"⟩
    else .next c

/-- The function `GenerateJWT`: session claims for the account, expiring after 24 hours,
signed with HS256 under the process secret. -/
def GenerateJWT (env : Env) (user : User) : Option String :=
  let claims : JWTClaims :=
    { UserID := Itoa user.ID, Email := user.Email, Username := user.Username, Role := user.Role,
      ExpiresAt := env.now + 3600 * 24, IssuedAt := env.now, NotBefore := 0 }
  env.jwt.SignedString "HS256" claims.toMap (jwtSecret env)

/-- The function `GenerateRefreshToken`: the account id, the marker `refresh` and an expiry 7
days ahead, signed with HS256 under the process secret. -/
def GenerateRefreshToken (env : Env) (user : User) : Option String :=
  env.jwt.SignedString "HS256"
    [("exp", JVal.num (env.now + 3600 * 24 * 7)), ("type", JVal.str "refresh"),
     ("user_id", JVal.str (Itoa user.ID))]
    (jwtSecret env)

/-! ## controllers -/

/-- A call a handler makes to a collaborator: a storage query, a storage statement, or one of
the two token issuers. -/
inductive Call where
  | Query (s : Stmt)
  | Exec (s : Stmt)
  | GenerateJWT (u : User)
  | GenerateRefreshToken (u : User)
deriving DecidableEq, Repr

/-- What a handler leaves behind: the response written, the collaborator calls made in order,
and the storage afterwards. -/
structure Result where
  response : Response
  calls : List Call
  db : Db
deriving DecidableEq, Repr

/-- The response of a handler that panicked, as written by `gin.Recovery`. -/
def panicResponse : Response := ⟨500, .empty⟩

/-- The handler `UserSignup`. -/
def UserSignup (env : Env) (db : Db) (req : Request) (_c : Context) : Result :=
  match env.bindSignup req.body with
  | none => ⟨⟨400, .error "Invalid request" "Failed to parse request body"⟩, [], db⟩
  | some signupReq =>
    if signupReq.Email = "" ∨ signupReq.Password = "" ∨ signupReq.Username = "" then
      ⟨⟨400, .error "Validation error" "Email, username, and password are required"⟩, [], db⟩
    else
      let q1 : Stmt := ⟨sqlCount, [.str signupReq.Email, .str signupReq.Username]⟩
      match db.countByEmailOrUsername signupReq.Email signupReq.Username with
      | none =>
        ⟨⟨500, .error "Database error" "Failed to check existing user"⟩, [.Query q1], db⟩
      | some count =>
        if count > 0 then
          ⟨⟨409, .error "User exists" "User with this email or username already exists"⟩,
            [.Query q1], db⟩
        else
          match env.GenerateFromPassword signupReq.Password with
          | none =>
            ⟨⟨500, .error "Internal error" "Failed to process password"⟩, [.Query q1], db⟩
          | some hashedPassword =>
            let role := if signupReq.Role = "" then "user" else signupReq.Role
            let now := env.now
            let q2 : Stmt := ⟨sqlInsert,
              [.str signupReq.Username, .str signupReq.FirstName, .str signupReq.LastName,
               .str signupReq.Email, .str hashedPassword, .str role, .time now, .time now]⟩
            match db.insertUser signupReq.Username signupReq.FirstName signupReq.LastName
                signupReq.Email hashedPassword role now now with
            | (none, db1) =>
              ⟨⟨500, .error "Database error" "Failed to create user"⟩,
                [.Query q1, .Query q2], db1⟩
            | (some userID, db1) =>
              let user : User :=
                { ID := userID, Username := signupReq.Username, FirstName := signupReq.FirstName,
                  LastName := signupReq.LastName, Email := signupReq.Email, Password := "",
                  Role := role, SessionID := "", SessionToken := "", RefreshToken := "",
                  CreatedAt := now, UpdatedAt := now }
              match GenerateJWT env user with
              | none =>
                ⟨⟨500, .error "Token error" "Failed to generate token"⟩,
                  [.Query q1, .Query q2, .GenerateJWT user], db1⟩
              | some token =>
                match GenerateRefreshToken env user with
                | none =>
                  ⟨⟨500, .error "Token error" "Failed to generate refresh token"⟩,
                    [.Query q1, .Query q2, .GenerateJWT user, .GenerateRefreshToken user], db1⟩
                | some refreshToken =>
                  ⟨⟨201, .auth token refreshToken user "User created successfully"⟩,
                    [.Query q1, .Query q2, .GenerateJWT user, .GenerateRefreshToken user], db1⟩

/-- The handler `UserLogin`. -/
def UserLogin (env : Env) (db : Db) (req : Request) (_c : Context) : Result :=
  match env.bindLogin req.body with
  | none => ⟨⟨400, .error "Invalid request" "Failed to parse request body"⟩, [], db⟩
  | some loginReq =>
    if loginReq.Email = "" ∨ loginReq.Password = "" then
      ⟨⟨400, .error "Validation error" "Email and password are required"⟩, [], db⟩
    else
      let q : Stmt := ⟨sqlSelectByEmail, [.str loginReq.Email]⟩
      match db.selectByEmail loginReq.Email with
      | .error .ErrNoRows =>
        ⟨⟨401, .error "Authentication failed" "Invalid email or password"⟩, [.Query q], db⟩
      | .error .driver =>
        ⟨⟨500, .error "Database error" "Failed to fetch user"⟩, [.Query q], db⟩
      | .ok user =>
        if ¬ env.CompareHashAndPassword user.Password loginReq.Password then
          ⟨⟨401, .error "Authentication failed" "Invalid email or password"⟩, [.Query q], db⟩
        else
          match GenerateJWT env user with
          | none =>
            ⟨⟨500, .error "Token error" "Failed to generate token"⟩,
              [.Query q, .GenerateJWT user], db⟩
          | some token =>
            match GenerateRefreshToken env user with
            | none =>
              ⟨⟨500, .error "Token error" "Failed to generate refresh token"⟩,
                [.Query q, .GenerateJWT user, .GenerateRefreshToken user], db⟩
            | some refreshToken =>
              ⟨⟨200, .auth token refreshToken { user with Password := "" } "Login successful"⟩,
                [.Query q, .GenerateJWT user, .GenerateRefreshToken user], db⟩

/-- The handler `UserLogout`. -/
def UserLogout (_env : Env) (db : Db) (_req : Request) (_c : Context) : Result :=
  ⟨⟨200, .success "Logout successful" .none⟩, [], db⟩

/-- The handler `GetAllUsers`. -/
def GetAllUsers (_env : Env) (db : Db) (_req : Request) (_c : Context) : Result :=
  match db.selectAll with
  | none => ⟨⟨500, .error "Database error" "Failed to fetch users"⟩, [.Query ⟨sqlSelectAll, []⟩], db⟩
  | some users =>
    ⟨⟨200, .success "Users retrieved successfully" (.users users)⟩,
      [.Query ⟨sqlSelectAll, []⟩], db⟩

/-- The handler `GetUserByID`. -/
def GetUserByID (_env : Env) (db : Db) (_req : Request) (c : Context) : Result :=
  let userIDStr := c.Param "id"
  match Atoi userIDStr with
  | none => ⟨⟨400, .error "Invalid ID" "Invalid user ID format"⟩, [], db⟩
  | some userID =>
    let q : Stmt := ⟨sqlSelectByID, [.int userID]⟩
    match db.selectByID userID with
    | .error .ErrNoRows => ⟨⟨404, .error "Not found" "User not found"⟩, [.Query q], db⟩
    | .error .driver => ⟨⟨500, .error "Database error" "Failed to fetch user"⟩, [.Query q], db⟩
    | .ok user => ⟨⟨200, .success "User retrieved successfully" (.user user)⟩, [.Query q], db⟩

/-- The type assertion `v.(string)` on a context value; `none` is the run-time panic. -/
def CtxVal.assertString : CtxVal → Option String
  | .str s => some s
  | _ => none

/-- The state of the statement builder of `UpdateUser`: the `column = $k` assignments, the
arguments, and the next placeholder index. -/
structure Builder where
  setParts : List (String × Nat)
  args : List SqlArg
  argIndex : Nat
deriving DecidableEq, Repr

/-- One step of the builder: when the field is not empty, append `col = $argIndex` and the
value, and advance the index. -/
def Builder.add (b : Builder) (col : String) (v : String) : Builder :=
  if v ≠ "" then
    { setParts := b.setParts ++ [(col, b.argIndex)], args := b.args ++ [.str v],
      argIndex := b.argIndex + 1 }
  else b

/-- The text `fmt.Sprintf("col = $%d", k)` of one assignment. -/
def renderSet (p : String × Nat) : String := p.1 ++ " = $" ++ toString p.2

/-- The text `fmt.Sprintf("UPDATE users SET %s WHERE id = $%d", strings.Join(setParts, ", "),
argIndex)`. -/
def renderUpdate (setParts : List (String × Nat)) (argIndex : Nat) : String :=
  "UPDATE users SET " ++ ", ".intercalate (setParts.map renderSet) ++ " WHERE id = $" ++
    toString argIndex

/-- The builder of `UpdateUser` run over a request: `updated_at` first, then each non-empty
field in the fixed order, the role only when the attached role is `admin`. `none` is the panic
of the role type assertion. -/
def buildUpdate (now : Int) (updateReq : UserUpdateRequest) (contextRole : CtxVal) :
    Option Builder :=
  let b0 : Builder := ⟨[("updated_at", 1)], [.time now], 2⟩
  let b1 := b0.add "username" updateReq.Username
  let b2 := b1.add "first_name" updateReq.FirstName
  let b3 := b2.add "last_name" updateReq.LastName
  let b4 := b3.add "email" updateReq.Email
  if updateReq.Role ≠ "" then
    match contextRole.assertString with
    | none => none
    | some r => if r = "admin" then some (b4.add "role" updateReq.Role) else some b4
  else some b4

/-- The context value of `user_id` as text, the way the handlers read it: a string as is, an
int through `strconv.Itoa`; any other type has no text. -/
def contextUserIDString : CtxVal → Option String
  | .str v => some v
  | .int v => some (Itoa v)
  | .other => none

/-- The handler `UpdateUser`. -/
def UpdateUser (env : Env) (db : Db) (req : Request) (c : Context) : Result :=
  let userIDStr := c.Param "id"
  match Atoi userIDStr with
  | none => ⟨⟨400, .error "Invalid ID" "Invalid user ID format"⟩, [], db⟩
  | some userID =>
    match env.bindUpdate req.body with
    | none => ⟨⟨400, .error "Invalid request" "Failed to parse request body"⟩, [], db⟩
    | some updateReq =>
      match c.Get "user_id" with
      | none => ⟨⟨401, .error "Unauthorized" "User ID not found in context"⟩, [], db⟩
      | some contextUserID =>
        match c.Get "role" with
        | none => ⟨⟨401, .error "Unauthorized" "User role not found in context"⟩, [], db⟩
        | some contextRole =>
          match contextUserIDString contextUserID with
          | none => ⟨⟨500, .error "Internal error" "Invalid user ID type in context"⟩, [], db⟩
          | some contextUserIDStr =>
            let denied : Option Bool :=
              if contextUserIDStr ≠ userIDStr then
                contextRole.assertString.map (fun r => decide (r ≠ "admin"))
              else some false
            match denied with
            | none => ⟨panicResponse, [], db⟩
            | some true =>
              ⟨⟨403, .error "Forbidden" "You can only update your own profile"⟩, [], db⟩
            | some false =>
              if updateReq.Username = "" ∧ updateReq.FirstName = "" ∧ updateReq.LastName = "" ∧
                  updateReq.Email = "" ∧ updateReq.Role = "" then
                ⟨⟨400, .error "Validation error"
                  "At least one field must be provided for update"⟩, [], db⟩
              else
                match buildUpdate env.now updateReq contextRole with
                | none => ⟨panicResponse, [], db⟩
                | some b =>
                  let args := b.args ++ [.int userID]
                  let query := renderUpdate b.setParts b.argIndex
                  match db.ExecUpdate b.setParts b.argIndex args with
                  | none =>
                    ⟨⟨500, .error "Database error" "Failed to update user"⟩,
                      [.Exec ⟨query, args⟩], db⟩
                  | some (n, db1) =>
                    match db1.RowsAffected n with
                    | none =>
                      ⟨⟨500, .error "Database error" "Failed to check update result"⟩,
                        [.Exec ⟨query, args⟩], db1⟩
                    | some rowsAffected =>
                      if rowsAffected = 0 then
                        ⟨⟨404, .error "Not found" "User not found"⟩, [.Exec ⟨query, args⟩], db1⟩
                      else
                        ⟨⟨200, .success "User updated successfully" .none⟩,
                          [.Exec ⟨query, args⟩], db1⟩

/-- The handler `DeleteUser`. -/
def DeleteUser (_env : Env) (db : Db) (_req : Request) (c : Context) : Result :=
  let userIDStr := c.Param "id"
  match Atoi userIDStr with
  | none => ⟨⟨400, .error "Invalid ID" "Invalid user ID format"⟩, [], db⟩
  | some userID =>
    let isSelf : Bool :=
      match c.Get "user_id" with
      | none => false
      | some contextUserID =>
        decide ((contextUserIDString contextUserID).getD "" = userIDStr)
    if isSelf then
      ⟨⟨400, .error "Invalid operation" "You cannot delete your own account"⟩, [], db⟩
    else
      let q : Stmt := ⟨sqlDelete, [.int userID]⟩
      match db.ExecDelete userID with
      | none => ⟨⟨500, .error "Database error" "Failed to delete user"⟩, [.Exec q], db⟩
      | some (n, db1) =>
        match db1.RowsAffected n with
        | none =>
          ⟨⟨500, .error "Database error" "Failed to check delete result"⟩, [.Exec q], db1⟩
        | some rowsAffected =>
          if rowsAffected = 0 then ⟨⟨404, .error "Not found" "User not found"⟩, [.Exec q], db1⟩
          else ⟨⟨200, .success "User deleted successfully" .none⟩, [.Exec q], db1⟩

/-- The handler `GetProfile`. -/
def GetProfile (_env : Env) (db : Db) (_req : Request) (c : Context) : Result :=
  match c.Get "user_id" with
  | none => ⟨⟨401, .error "Unauthorized" "User ID not found in context"⟩, [], db⟩
  | some contextUserID =>
    let parsed : Option (Option Int) :=
      match contextUserID with
      | .str v => some (Atoi v)
      | .int v => some (some v)
      | .other => none
    match parsed with
    | none => ⟨⟨500, .error "Internal error" "Invalid user ID type in context"⟩, [], db⟩
    | some none => ⟨⟨400, .error "Invalid ID" "Invalid user ID"⟩, [], db⟩
    | some (some userID) =>
      let q : Stmt := ⟨sqlSelectByID, [.int userID]⟩
      match db.selectByID userID with
      | .error .ErrNoRows =>
        ⟨⟨404, .error "Not found" "User profile not found"⟩, [.Query q], db⟩
      | .error .driver =>
        ⟨⟨500, .error "Database error" "Failed to fetch profile"⟩, [.Query q], db⟩
      | .ok user =>
        ⟨⟨200, .success "Profile retrieved successfully" (.user user)⟩, [.Query q], db⟩

/-! ## routes -/

/-- A segment of a route pattern: a literal or a named parameter. -/
inductive Seg where
  | lit (s : String)
  | param (name : String)
deriving DecidableEq, Repr

/-- A route pattern matched against the path segments of a request; the result binds the
parameters. A parameter takes one non-empty segment. -/
def matchPath : List Seg → List String → Option (List (String × String))
  | [], [] => some []
  | .lit s :: ps, x :: xs => if s = x then matchPath ps xs else none
  | .param name :: ps, x :: xs =>
    if x = "" then none else (matchPath ps xs).map (fun bs => (name, x) :: bs)
  | _, _ => none

/-- A registered route: method, pattern, the named group middlewares in order, and the named
handler. -/
structure Route where
  method : String
  pattern : List Seg
  middlewares : List (String × (Env → Request → Context → Step))
  handlerName : String
  handler : Env → Db → Request → Context → Result

/-- The handler of the health check. -/
def health (_env : Env) (db : Db) (_req : Request) (_c : Context) : Result :=
  ⟨⟨200, .health⟩, [], db⟩

/-- The middlewares applied to every request by `router.Use`. -/
def globalMiddlewares : List (String × (Env → Request → Context → Step)) :=
  [("CORS", CORS), ("Logger", passThrough), ("Recovery", passThrough)]

/-- The routes registered by `SetupRoutes` under `/api/v1`: the public group, the group
protected by `JWTAuth`, and the admin group protected by `JWTAuth` then `AdminOnly`. -/
def SetupRoutes : List Route :=
  let api : List Seg := [.lit "api", .lit "v1"]
  let protected_ : List (String × (Env → Request → Context → Step)) := [("JWTAuth", JWTAuth)]
  let admin := protected_ ++ [("AdminOnly", AdminOnly)]
  [ ⟨"GET", api ++ [.lit "health"], [], "health", health⟩,
    ⟨"POST", api ++ [.lit "auth", .lit "signup"], [], "UserSignup", UserSignup⟩,
    ⟨"POST", api ++ [.lit "auth", .lit "login"], [], "UserLogin", UserLogin⟩,
    ⟨"POST", api ++ [.lit "auth", .lit "logout"], protected_, "UserLogout", UserLogout⟩,
    ⟨"GET", api ++ [.lit "profile"], protected_, "GetProfile", GetProfile⟩,
    ⟨"GET", api ++ [.lit "users", .param "id"], protected_, "GetUserByID", GetUserByID⟩,
    ⟨"PUT", api ++ [.lit "users", .param "id"], protected_, "UpdateUser", UpdateUser⟩,
    ⟨"GET", api ++ [.lit "users"], admin, "GetAllUsers", GetAllUsers⟩,
    ⟨"DELETE", api ++ [.lit "users", .param "id"], admin, "DeleteUser", DeleteUser⟩ ]

/-- The outcome of a request: the response, the pipeline stages that ran in order, the
collaborator calls made, the storage afterwards, and the context the last stage saw. -/
structure Outcome where
  response : Response
  stages : List String
  calls : List Call
  db : Db
  ctx : Context
deriving DecidableEq, Repr

/-- The handler chain of a route: each middleware either aborts with its response, and no later
stage runs, or passes its context on; the handler runs last. -/
def runChain (env : Env) (db : Db) (req : Request) :
    List (String × (Env → Request → Context → Step)) →
    Option (String × (Env → Db → Request → Context → Result)) → Context → List String → Outcome
  | [], none, c, ran => ⟨⟨404, .empty⟩, ran, [], db, c⟩
  | [], some (name, h), c, ran =>
    let r := h env db req c
    ⟨r.response, ran ++ [name], r.calls, r.db, c⟩
  | (name, m) :: ms, h, c, ran =>
    match m env req c with
    | .abort c1 resp => ⟨resp, ran ++ [name], [], db, c1⟩
    | .next c1 => runChain env db req ms h c1 (ran ++ [name])

/-- The route serving a request: the first registered route with the request's method whose
pattern matches the path, with the parameters bound. -/
def findRoute (req : Request) : List Route → Option (Route × List (String × String))
  | [] => none
  | r :: rs =>
    if r.method = req.method then
      match matchPath r.pattern req.path with
      | some ps => some (r, ps)
      | none => findRoute req rs
    else findRoute req rs

/-- The router on one request: the global middlewares, then the matching route's group
middlewares and handler, or 404 when no route matches. -/
def serve (env : Env) (db : Db) (req : Request) : Outcome :=
  match findRoute req SetupRoutes with
  | none => runChain env db req globalMiddlewares none ⟨[], []⟩ []
  | some (r, ps) =>
    runChain env db req (globalMiddlewares ++ r.middlewares) (some (r.handlerName, r.handler))
      ⟨ps, []⟩ []

/-- The contract of the token library the service relies on: a compact text returned by
`SignedString` decodes to the algorithm and payload that were signed, and its signature
verifies under the same algorithm and key. -/
def JwtLib.RoundTrips (lib : JwtLib) : Prop :=
  ∀ (alg : String) (m : MapClaims) (key t : String),
    lib.SignedString alg m key = some t → lib.Decode t = some (alg, m) ∧ lib.Verify t alg key = true

/-- The JSON object written for a `models.User`, by its field tags: `session_id`,
`session_token` and `refresh_token` are left out when empty (`omitempty`); every other field,
`password` included, is always written. Instants are written as numbers here. -/
def User.toJSON (u : User) : MapClaims :=
  [("id", JVal.num u.ID), ("username", JVal.str u.Username),
   ("first_name", JVal.str u.FirstName), ("last_name", JVal.str u.LastName),
   ("email", JVal.str u.Email), ("password", JVal.str u.Password), ("role", JVal.str u.Role)]
  ++ (if u.SessionID = "" then [] else [("session_id", JVal.str u.SessionID)])
  ++ (if u.SessionToken = "" then [] else [("session_token", JVal.str u.SessionToken)])
  ++ (if u.RefreshToken = "" then [] else [("refresh_token", JVal.str u.RefreshToken)])
  ++ [("created_at", JVal.num u.CreatedAt), ("updated_at", JVal.num u.UpdatedAt)]

/-- The columns of the update statement as it is described, with their values: `updated_at`
with the update time always, then `username`, `first_name`, `last_name`, `email` in this order,
each exactly when the request's field is not empty, then `role` when the field is not empty
and the caller is an admin. -/
def describedColumns (now : Int) (upd : UserUpdateRequest) (isAdmin : Bool) :
    List (String × SqlArg) :=
  [("updated_at", SqlArg.time now)]
  ++ (if upd.Username ≠ "" then [("username", SqlArg.str upd.Username)] else [])
  ++ (if upd.FirstName ≠ "" then [("first_name", SqlArg.str upd.FirstName)] else [])
  ++ (if upd.LastName ≠ "" then [("last_name", SqlArg.str upd.LastName)] else [])
  ++ (if upd.Email ≠ "" then [("email", SqlArg.str upd.Email)] else [])
  ++ (if upd.Role ≠ "" ∧ isAdmin = true then [("role", SqlArg.str upd.Role)] else [])

/-- A builder state describes a list of columns with values when its assignments are those
columns with the placeholders 1, 2, ... in order, its arguments are the values in the same
order, and its next placeholder index is one past the last used. -/
def Builder.Describes (b : Builder) (cols : List (String × SqlArg)) : Prop :=
  b.setParts = (cols.map Prod.fst).zip (List.range' 1 cols.length) ∧
  b.args = cols.map Prod.snd ∧ b.argIndex = cols.length + 1

/-! ## Sample values

A table-backed token library and a small environment, used to run the definitions on concrete
requests. -/

/-- A token library backed by a table of issued tokens: each entry gives a compact text with
the algorithm, payload and key it was signed with. -/
def tableJwt (table : List (String × String × MapClaims × String)) : JwtLib where
  SignedString alg m key :=
    (table.find? (fun e => decide (e.2.1 = alg ∧ e.2.2.1 = m ∧ e.2.2.2 = key))).map (fun e => e.1)
  Decode s := (table.lookup s).map (fun e => (e.1, e.2.1))
  Verify s alg key :=
    match table.lookup s with
    | some e => decide (e.1 = alg ∧ e.2.2 = key)
    | none => false

/-- A sample account row. -/
def sampleUser (uid : Int) (name role : String) : User :=
  { ID := uid, Username := name, FirstName := "", LastName := "", Email := name ++ "@x.com",
    Password := "hash:secret123", Role := role, SessionID := "", SessionToken := "",
    RefreshToken := "", CreatedAt := 100, UpdatedAt := 100 }

/-- A sample storage: an admin with id 5 and a plain user with id 7. -/
def sampleDb : Db :=
  { rows := [sampleUser 5 "root" "admin", sampleUser 7 "bob" "user"], nextID := 8, up := true,
    reportsRows := true }

/-- The tokens issued at time 900 to the two sample accounts under the default secret. -/
def sampleTokens : List (String × String × MapClaims × String) :=
  [ ("tok-root", "HS256",
      [("user_id", JVal.str "5"), ("email", JVal.str "root@x.com"),
       ("username", JVal.str "root"), ("role", JVal.str "admin"),
       ("exp", JVal.num 87300), ("iat", JVal.num 900)], "your-secret-key"),
    ("tok-bob", "HS256",
      [("user_id", JVal.str "7"), ("email", JVal.str "bob@x.com"),
       ("username", JVal.str "bob"), ("role", JVal.str "user"),
       ("exp", JVal.num 87300), ("iat", JVal.num 900)], "your-secret-key") ]

/-- A sample environment: the default secret, the sample tokens, a transparent hasher, binders
that reject every body, and the clock at 1000. -/
def sampleEnv : Env :=
  { JWT_SECRET := "", jwt := tableJwt sampleTokens, GenerateFromPassword := fun p => some ("hash:" ++ p),
    CompareHashAndPassword := fun h p => decide (h = "hash:" ++ p),
    bindSignup := fun _ => none, bindLogin := fun _ => none, bindUpdate := fun _ => none,
    now := 1000 }

/-- A sample request with the given method, path, headers and body. -/
def sampleRequest (method : String) (path : List String) (headers : List (String × String))
    (body : String) : Request :=
  { method := method, path := path, headers := headers, body := body }

/-- The context a handler sees after `JWTAuth` accepted claims with the given identity, with
the route parameter `id` bound. -/
def attached (idParam userID role : String) : Context :=
  { Params := [("id", idParam)],
    Keys := [("role", .str role), ("username", .str ""), ("email", .str ""),
             ("user_id", .str userID)] }

/-- The tokens issued at time 1000 to an account created with id 8 (`carol` with the default
role, or `dave` with the role `superuser`; the refresh token of id 8 is the same for both), and
the refresh token issued at time 900 to the admin account 5, all under the default secret. -/
def signupTokens : List (String × String × MapClaims × String) :=
  [ ("tok-carol", "HS256",
      [("user_id", JVal.str "8"), ("email", JVal.str "carol@x.com"),
       ("username", JVal.str "carol"), ("role", JVal.str "user"),
       ("exp", JVal.num 87400), ("iat", JVal.num 1000)], "your-secret-key"),
    ("tok-dave", "HS256",
      [("user_id", JVal.str "8"), ("email", JVal.str "dave@x.com"),
       ("username", JVal.str "dave"), ("role", JVal.str "superuser"),
       ("exp", JVal.num 87400), ("iat", JVal.num 1000)], "your-secret-key"),
    ("ref-carol", "HS256",
      [("exp", JVal.num 605800), ("type", JVal.str "refresh"), ("user_id", JVal.str "8")],
      "your-secret-key"),
    ("ref-root", "HS256",
      [("exp", JVal.num 605700), ("type", JVal.str "refresh"), ("user_id", JVal.str "5")],
      "your-secret-key") ]

/-- The sample environment with the signup and refresh tokens, and a signup binder that yields
the given request. -/
def signupEnv (su : SignupRequest) : Env :=
  { sampleEnv with jwt := tableJwt signupTokens, bindSignup := fun _ => some su }

end GinApi

namespace GinApi

/-! ## Facts about strconv -/

theorem digitChar_isDigit (k : Nat) (hk : k < 10) :
    (Nat.digitChar k).isDigit = true ∧ (Nat.digitChar k).toNat - 48 = k := by
  interval_cases k <;> decide

theorem parseDigits_toDigitsCore (fuel : Nat) :
    ∀ (n : Nat) (ds : List Char), n < fuel →
      parseDigits (Nat.toDigitsCore 10 fuel n ds) 0 = parseDigits ds n := by
  induction fuel with
  | zero => intro n ds h; omega
  | succ fuel ih =>
    intro n ds h
    have hd := digitChar_isDigit (n % 10) (Nat.mod_lt _ (by decide))
    simp only [Nat.toDigitsCore]
    by_cases h0 : n / 10 = 0
    · simp only [h0, if_true, parseDigits, hd.1, hd.2]
      have : n % 10 = n := Nat.mod_eq_of_lt (by omega)
      simp [this]
    · simp only [h0, if_false]
      rw [ih (n / 10) _ (by omega)]
      simp only [parseDigits, hd.1, hd.2, if_true]
      congr 1
      omega

theorem parseDigits_toDigits (m : Nat) : parseDigits (Nat.toDigits 10 m) 0 = some m := by
  unfold Nat.toDigits
  rw [parseDigits_toDigitsCore (m + 1) m [] (by omega)]
  rfl

theorem toDigits_ne_nil (m : Nat) : Nat.toDigits 10 m ≠ [] := by
  unfold Nat.toDigits
  simp only [Nat.toDigitsCore]
  split
  · simp
  · intro h
    have := Nat.toDigitsCore_lens_eq 10 m (m / 10) (Nat.digitChar (m % 10)) []
    rw [h] at this
    simp at this

theorem Atoi_Itoa_ofNat (m : Nat) :
    Atoi (Itoa (Int.ofNat m)) = if m < 2 ^ 63 then some (m : Int) else none := by
  have hp := parseDigits_toDigits m
  have hne := toDigits_ne_nil m
  unfold Atoi Itoa
  simp only
  cases hds : Nat.toDigits 10 m with
  | nil => exact absurd hds hne
  | cons c cs =>
    rw [hds] at hp
    have hc : c.isDigit = true := by
      by_contra hc
      simp [parseDigits, hc] at hp
    have h1 : c ≠ '-' := by rintro rfl; exact absurd hc (by decide)
    have h2 : c ≠ '+' := by rintro rfl; exact absurd hc (by decide)
    simp [h1, h2, hp]

theorem Atoi_Itoa_negSucc (m : Nat) :
    Atoi (Itoa (Int.negSucc m)) = if m + 1 ≤ 2 ^ 63 then some (Int.negSucc m) else none := by
  have hp := parseDigits_toDigits (m + 1)
  have hne := toDigits_ne_nil (m + 1)
  unfold Atoi Itoa
  simp [hne, hp, Int.negSucc_eq]

/-- Whatever `Atoi` reads back from the text written by `Itoa` is the integer written. -/
theorem Atoi_Itoa_some (n m : Int) (h : Atoi (Itoa n) = some m) : m = n := by
  cases n with
  | ofNat k =>
    rw [Atoi_Itoa_ofNat] at h
    split at h
    · simpa using h.symm
    · exact absurd h (by simp)
  | negSucc k =>
    rw [Atoi_Itoa_negSucc] at h
    split at h
    · simpa using h.symm
    · exact absurd h (by simp)

/-- The text written by `Itoa` is read back by `Atoi` as the same integer, whenever that
integer fits the 64-bit `int`. -/
theorem Atoi_Itoa (n : Int) (hlo : -(2 : Int) ^ 63 ≤ n) (hhi : n < (2 : Int) ^ 63) :
    Atoi (Itoa n) = some n := by
  cases n with
  | ofNat m =>
    have hm : m < 2 ^ 63 := by
      have : ((m : Nat) : Int) < (2 : Int) ^ 63 := hhi
      exact_mod_cast this
    rw [Atoi_Itoa_ofNat, if_pos hm]
    rfl
  | negSucc m =>
    have hm : m + 1 ≤ 2 ^ 63 := by
      have : -(2 : Int) ^ 63 ≤ Int.negSucc m := hlo
      rw [Int.negSucc_eq] at this
      have h3 : ((m : Int) + 1) ≤ (2 : Int) ^ 63 := by omega
      exact_mod_cast h3
    rw [Atoi_Itoa_negSucc, if_pos hm]

end GinApi

namespace GinApi

/-! ## Self-deletion (C1) -/

/-- C1, evaluated at the failing input: an admin whose attached identity is account 5
(`user_id` is `Itoa 5`, as issued by `GenerateJWT`) sends `DELETE /api/v1/users/05`. `Atoi`
parses the path id `05` to 5, yet the self-deletion guard compares the texts `5` and `05`, so
the request is not answered with 400: `DELETE FROM users WHERE id = $1` runs with argument 5,
the answer is 200 and the caller's own row is gone. -/
theorem C1_DeleteUser_deletes_own_account_on_padded_id :
    GenerateJWT { sampleEnv with now := 900 } (sampleUser 5 "root" "admin") = some "tok-root" ∧
    Atoi "05" = some 5 ∧
    (serve sampleEnv sampleDb
      (sampleRequest "DELETE" ["api", "v1", "users", "05"]
        [("Authorization", "Bearer tok-root")] "")).ctx.Get "user_id" = some (.str (Itoa 5)) ∧
    (serve sampleEnv sampleDb
      (sampleRequest "DELETE" ["api", "v1", "users", "05"]
        [("Authorization", "Bearer tok-root")] "")).response
      = ⟨200, .success "User deleted successfully" .none⟩ ∧
    (serve sampleEnv sampleDb
      (sampleRequest "DELETE" ["api", "v1", "users", "05"]
        [("Authorization", "Bearer tok-root")] "")).calls
      = [.Exec ⟨sqlDelete, [.int 5]⟩] ∧
    (serve sampleEnv sampleDb
      (sampleRequest "DELETE" ["api", "v1", "users", "05"]
        [("Authorization", "Bearer tok-root")] "")).db.rows = [sampleUser 7 "bob" "user"] := by
  decide

end GinApi

namespace GinApi

/-! ## Updating an account (C2) -/

/-- Every statement `UpdateUser` executes is the built update: the path id parsed, the body
bound, identity and role were attached, the caller passed the check at the top (own id text or
role `admin`), and the statement is the rendered builder with the path id as last argument. -/
theorem UpdateUser_exec_args (env : Env) (db : Db) (req : Request) (c : Context) (st : Stmt)
    (h : Call.Exec st ∈ (UpdateUser env db req c).calls) :
    ∃ userID upd cu cr b, Atoi (c.Param "id") = some userID ∧
      env.bindUpdate req.body = some upd ∧ c.Get "user_id" = some cu ∧ c.Get "role" = some cr ∧
      buildUpdate env.now upd cr = some b ∧
      (contextUserIDString cu = some (c.Param "id") ∨ cr = .str "admin") ∧
      st = ⟨renderUpdate b.setParts b.argIndex, b.args ++ [.int userID]⟩ := by
  unfold UpdateUser at h
  simp only at h
  split at h
  · simp at h
  · rename_i userID hA
    split at h
    · simp at h
    · rename_i upd hB
      split at h
      · simp at h
      · rename_i cu hcu
        split at h
        · simp at h
        · rename_i cr hcr
          split at h
          · simp at h
          · rename_i cus hcus
            split at h
            · simp [panicResponse] at h
            · simp at h
            · rename_i hden
              split at h
              · simp at h
              · split at h
                · simp [panicResponse] at h
                · rename_i b hb
                  refine ⟨userID, upd, cu, cr, b, hA, hB, hcu, hcr, hb, ?_, ?_⟩
                  · by_cases he : cus = c.Param "id"
                    · left; rw [hcus, he]
                    · right
                      simp only [he, ne_eq, not_false_eq_true, if_true] at hden
                      cases cr with
                      | str r =>
                        simp [CtxVal.assertString] at hden
                        rw [hden]
                      | int _ => simp [CtxVal.assertString] at hden
                      | other => simp [CtxVal.assertString] at hden
                  · split at h
                    · simp at h; exact h
                    · split at h
                      · simp at h; exact h
                      · split at h <;> (simp at h; exact h)

/-- C2 (amended): a non-admin caller cannot update another account. For every `UpdateUser` call
whose attached role is a string other than `admin` and whose attached `user_id` is `Itoa n`:
every statement executed has the path id text equal to `Itoa n`, the parsed path id equal to
`n`, and `n` as its last (`WHERE id`) argument; and whenever the path id parses, the body binds
and the path id text differs from `Itoa n`, the answer is 403 `You can only update your own
profile`, no storage call is made and the storage is unchanged. -/
theorem C2_UpdateUser_non_admin_updates_only_own_account
    (env : Env) (db : Db) (req : Request) (c : Context) (n : Int) (role : String)
    (hid : c.Get "user_id" = some (.str (Itoa n)))
    (hrole : c.Get "role" = some (.str role))
    (hna : role ≠ "admin") :
    (∀ st, Call.Exec st ∈ (UpdateUser env db req c).calls →
        c.Param "id" = Itoa n ∧ Atoi (c.Param "id") = some n ∧
        st.args.getLast? = some (.int n)) ∧
    (∀ m upd, Atoi (c.Param "id") = some m → env.bindUpdate req.body = some upd →
        c.Param "id" ≠ Itoa n →
        UpdateUser env db req c =
          ⟨⟨403, .error "Forbidden" "You can only update your own profile"⟩, [], db⟩) := by
  constructor
  · intro st hst
    obtain ⟨userID, upd, cu, cr, b, hA, _, hcu, hcr, _, hor, hst2⟩ :=
      UpdateUser_exec_args env db req c st hst
    rw [hid] at hcu
    rw [hrole] at hcr
    cases hcu
    cases hcr
    have hp : Itoa n = c.Param "id" := by
      rcases hor with h | h
      · simpa [contextUserIDString] using h
      · exact absurd (by simpa using h) hna
    have hn : userID = n := Atoi_Itoa_some n userID (by rw [hp]; exact hA)
    subst hn
    refine ⟨hp.symm, hA, ?_⟩
    rw [hst2]
    simp
  · intro m upd hA hB hne
    have hne2 : ¬ (Itoa n = c.Param "id") := fun h => hne h.symm
    unfold UpdateUser
    simp [hA, hB, hid, hrole, contextUserIDString, CtxVal.assertString, hne2, hna]

/-- C2 witness: the plain user 7 updating `/users/7` with a first name and a role; the executed
statement is `UPDATE users SET updated_at = $1, first_name = $2 WHERE id = $3` with last
argument 7. -/
theorem C2_UpdateUser_non_admin_updates_only_own_account_witness :
    (attached "7" (Itoa 7) "user").Get "user_id" = some (.str (Itoa 7)) ∧
    (attached "7" (Itoa 7) "user").Get "role" = some (.str "user") ∧
    Call.Exec ⟨"UPDATE users SET updated_at = $1, first_name = $2 WHERE id = $3",
        [.time 1000, .str "Bob", .int 7]⟩ ∈
      (UpdateUser { sampleEnv with bindUpdate := fun _ => some ⟨"", "Bob", "", "", "admin"⟩ }
        sampleDb (sampleRequest "PUT" [] [] "") (attached "7" (Itoa 7) "user")).calls ∧
    (attached "7" (Itoa 7) "user").Param "id" = Itoa 7 ∧
    Atoi ((attached "7" (Itoa 7) "user").Param "id") = some 7 ∧
    (Stmt.mk "UPDATE users SET updated_at = $1, first_name = $2 WHERE id = $3"
        [.time 1000, .str "Bob", .int 7]).args.getLast? = some (.int 7) :=
  ⟨by decide, by decide, by decide,
    (C2_UpdateUser_non_admin_updates_only_own_account
      { sampleEnv with bindUpdate := fun _ => some ⟨"", "Bob", "", "", "admin"⟩ }
      sampleDb (sampleRequest "PUT" [] [] "") (attached "7" (Itoa 7) "user") 7 "user"
      (by decide) (by decide) (by decide)).1 _ (by decide)⟩

/-- C2 counterexample: with a parseable path id and a non-admin caller (account 7), two calls in
which no UPDATE is executed and yet the answer is not 403. With path id 5 (another account) and
a body that does not bind, the answer is 400 `Invalid request`, because the body is bound
before the ownership check; with the caller's own path id 7 and all fields empty, the answer is
400 `Validation error`. -/
theorem C2_counterexample_other_outcomes_than_403 :
    (attached "5" (Itoa 7) "user").Get "role" = some (.str "user") ∧
    (attached "5" (Itoa 7) "user").Get "user_id" = some (.str (Itoa 7)) ∧
    Atoi ((attached "5" (Itoa 7) "user").Param "id") = some 5 ∧
    UpdateUser sampleEnv sampleDb (sampleRequest "PUT" [] [] "not json")
        (attached "5" (Itoa 7) "user")
      = ⟨⟨400, .error "Invalid request" "Failed to parse request body"⟩, [], sampleDb⟩ ∧
    Atoi ((attached "7" (Itoa 7) "user").Param "id") = some 7 ∧
    UpdateUser { sampleEnv with bindUpdate := fun _ => some ⟨"", "", "", "", ""⟩ } sampleDb
        (sampleRequest "PUT" [] [] "") (attached "7" (Itoa 7) "user")
      = ⟨⟨400, .error "Validation error" "At least one field must be provided for update"⟩,
          [], sampleDb⟩ := by
  decide

end GinApi

namespace GinApi

/-! ## Role changes by non-admins (C3) -/

/-- The builder state of `UpdateUser` before the role step. -/
theorem buildUpdate_non_admin (now : Int) (upd : UserUpdateRequest) (role : String)
    (hna : role ≠ "admin") :
    buildUpdate now upd (.str role) =
      some (((((⟨[("updated_at", 1)], [.time now], 2⟩ : Builder).add "username"
        upd.Username).add "first_name" upd.FirstName).add "last_name" upd.LastName).add "email"
        upd.Email) := by
  unfold buildUpdate
  by_cases h : upd.Role = "" <;> simp [h, CtxVal.assertString, hna]

theorem Builder.add_setParts (b : Builder) (col v : String) (p : String × Nat)
    (h : p ∈ (b.add col v).setParts) : p ∈ b.setParts ∨ p.1 = col := by
  unfold Builder.add at h
  split at h
  · simp at h
    rcases h with h | h
    · exact Or.inl h
    · exact Or.inr (by rw [h])
  · exact Or.inl h

theorem Builder.add_args (b : Builder) (col v : String) (a : SqlArg)
    (h : a ∈ (b.add col v).args) : a ∈ b.args ∨ a = .str v := by
  unfold Builder.add at h
  split at h
  · simp at h
    exact h
  · exact Or.inl h

theorem filterMap_map_some {α : Type} (l : List α) :
    (l.map some).filterMap (fun o => o) = l := by
  induction l with
  | nil => rfl
  | cons a l ih => simp [List.filterMap_cons, ih]

/-- The statement touching only `updated_at` succeeds on a storage that is up and whose rows
satisfy the table constraints: it rewrites the rows with the given id and reports their
number. -/
theorem ExecUpdate_touch (db : Db) (t uid : Int) (hup : db.up = true)
    (hfit : db.rows.all fitsColumns = true) (huniq : uniqueKeys db.rows = true) :
    db.ExecUpdate [("updated_at", 1)] 2 [.time t, .int uid] =
      some (((db.rows.countP (fun r => decide (r.ID = uid)) : Nat) : Int),
        { db with rows := db.rows.map (fun r => if r.ID = uid then { r with UpdatedAt := t } else r) }) := by
  have hmap : db.rows.map (fun r => if r.ID = uid then
        applySets [.time t, .int uid] [("updated_at", 1)] r else some r)
      = (db.rows.map (fun r => if r.ID = uid then { r with UpdatedAt := t } else r)).map some := by
    rw [List.map_map]
    apply List.map_congr_left
    intro r _
    by_cases h : r.ID = uid <;> simp [h, applySets, applySet]
  unfold Db.ExecUpdate
  simp only [hup, if_true, List.get?_eq_getElem?]
  simp only [show (2 - 1 : Nat) = 1 from rfl, List.getElem?_cons_succ, List.getElem?_cons_zero]
  rw [hmap]
  have h1 : (List.map some (db.rows.map
      (fun r => if r.ID = uid then { r with UpdatedAt := t } else r))).all Option.isSome = true := by
    simp
  have h2 : (List.map some (db.rows.map
      (fun r => if r.ID = uid then { r with UpdatedAt := t } else r))).filterMap (fun o => o)
      = db.rows.map (fun r => if r.ID = uid then { r with UpdatedAt := t } else r) :=
    filterMap_map_some _
  rw [h2]
  have h3 : (db.rows.map (fun r => if r.ID = uid then { r with UpdatedAt := t } else r)).all
      fitsColumns = true := by
    rw [List.all_eq_true] at hfit ⊢
    intro x hx
    rw [List.mem_map] at hx
    obtain ⟨r, hr, rfl⟩ := hx
    have := hfit r hr
    by_cases h : r.ID = uid
    · simpa [h, fitsColumns] using this
    · simpa [h] using this
  have h4 : uniqueKeys (db.rows.map
      (fun r => if r.ID = uid then { r with UpdatedAt := t } else r)) = true := by
    have e1 : (db.rows.map (fun r => if r.ID = uid then { r with UpdatedAt := t } else r)).map
        (fun r => r.ID) = db.rows.map (fun r => r.ID) := by
      rw [List.map_map]; apply List.map_congr_left; intro r _
      by_cases h : r.ID = uid <;> simp [h]
    have e2 : (db.rows.map (fun r => if r.ID = uid then { r with UpdatedAt := t } else r)).map
        (fun r => r.Username) = db.rows.map (fun r => r.Username) := by
      rw [List.map_map]; apply List.map_congr_left; intro r _
      by_cases h : r.ID = uid <;> simp [h]
    have e3 : (db.rows.map (fun r => if r.ID = uid then { r with UpdatedAt := t } else r)).map
        (fun r => r.Email) = db.rows.map (fun r => r.Email) := by
      rw [List.map_map]; apply List.map_congr_left; intro r _
      by_cases h : r.ID = uid <;> simp [h]
    unfold uniqueKeys at huniq ⊢
    rw [e1, e2, e3]
    exact huniq
  simp only [h1, h3, h4, if_true, Bool.and_self]

/-- C3 (amended): only an admin can change a role, and a non-admin's role change is dropped
silently. For every `UpdateUser` call with a parseable path id, a bound body and an attached
role other than `admin`, the builder yields a statement `b` which is the one built for the same
request with the role cleared; no assignment of `b` names the column `role`; its columns are
exactly `updated_at` followed by those of `username`, `first_name`, `last_name`, `email` whose
field is not empty, in this order, and its arguments are exactly the update time followed by
the non-empty values of those four fields, in this order (so the requested role is among the
arguments only when one of those fields carries the same text); every statement executed is
`b` with the path id appended. The request is not rejected because of the role: when the path
id is the text of the attached `user_id` and the role is not empty, whenever the storage
executes the statement and reports a non-zero row count the answer is 200 `User updated
successfully`; and when the role is the only non-empty field, the storage is up and consistent
and the account exists, the statement is `UPDATE users SET updated_at = $1 WHERE id = $2` and
the answer is 200. -/
theorem C3_UpdateUser_non_admin_role_dropped
    (env : Env) (db : Db) (req : Request) (c : Context) (upd : UserUpdateRequest)
    (uid role : String) (userID : Int)
    (hA : Atoi (c.Param "id") = some userID)
    (hB : env.bindUpdate req.body = some upd)
    (hid : c.Get "user_id" = some (.str uid))
    (hrole : c.Get "role" = some (.str role))
    (hna : role ≠ "admin") :
    ∃ b, buildUpdate env.now upd (.str role) = some b ∧
      buildUpdate env.now { upd with Role := "" } (.str role) = some b ∧
      (∀ p ∈ b.setParts, p.1 ≠ "role") ∧
      b.setParts.map Prod.fst =
        "updated_at" ::
          ([("username", upd.Username), ("first_name", upd.FirstName),
            ("last_name", upd.LastName), ("email", upd.Email)].filter
            (fun p => decide (p.2 ≠ ""))).map Prod.fst ∧
      b.args =
        SqlArg.time env.now ::
          ([upd.Username, upd.FirstName, upd.LastName, upd.Email].filter
            (fun v => decide (v ≠ ""))).map SqlArg.str ∧
      b.argIndex = (b.args ++ [SqlArg.int userID]).length ∧
      (∀ v, SqlArg.str v ∈ b.args ++ [.int userID] →
        v = upd.Username ∨ v = upd.FirstName ∨ v = upd.LastName ∨ v = upd.Email) ∧
      (∀ st, Call.Exec st ∈ (UpdateUser env db req c).calls →
        st = ⟨renderUpdate b.setParts b.argIndex, b.args ++ [.int userID]⟩) ∧
      (c.Param "id" = uid → upd.Role ≠ "" →
        (∀ k db1, db.ExecUpdate b.setParts b.argIndex (b.args ++ [.int userID]) = some (k, db1) →
          db1.reportsRows = true → k ≠ 0 →
          UpdateUser env db req c =
            ⟨⟨200, .success "User updated successfully" .none⟩,
              [.Exec ⟨renderUpdate b.setParts b.argIndex, b.args ++ [.int userID]⟩], db1⟩) ∧
        (upd.Username = "" → upd.FirstName = "" → upd.LastName = "" → upd.Email = "" →
          db.up = true → db.reportsRows = true → db.rows.all fitsColumns = true →
          uniqueKeys db.rows = true → (∃ r ∈ db.rows, r.ID = userID) →
          (UpdateUser env db req c).response =
            ⟨200, .success "User updated successfully" .none⟩ ∧
          (UpdateUser env db req c).calls =
            [.Exec ⟨"UPDATE users SET updated_at = $1 WHERE id = $2",
              [.time env.now, .int userID]⟩])) := by
  refine ⟨_, buildUpdate_non_admin env.now upd role hna, ?_, ?_, ?_, ?_, ?_, ?_, ?_, ?_⟩
  · exact buildUpdate_non_admin env.now { upd with Role := "" } role hna
  · intro p hp
    rcases Builder.add_setParts _ _ _ p hp with hp | hp
    · rcases Builder.add_setParts _ _ _ p hp with hp | hp
      · rcases Builder.add_setParts _ _ _ p hp with hp | hp
        · rcases Builder.add_setParts _ _ _ p hp with hp | hp
          · simp at hp
            rw [hp]
            decide
          · rw [hp]; decide
        · rw [hp]; decide
      · rw [hp]; decide
    · rw [hp]; decide
  · unfold Builder.add
    by_cases h1 : upd.Username = "" <;> by_cases h2 : upd.FirstName = "" <;>
      by_cases h3 : upd.LastName = "" <;> by_cases h4 : upd.Email = "" <;>
      simp [h1, h2, h3, h4]
  · unfold Builder.add
    by_cases h1 : upd.Username = "" <;> by_cases h2 : upd.FirstName = "" <;>
      by_cases h3 : upd.LastName = "" <;> by_cases h4 : upd.Email = "" <;>
      simp [h1, h2, h3, h4]
  · unfold Builder.add
    by_cases h1 : upd.Username = "" <;> by_cases h2 : upd.FirstName = "" <;>
      by_cases h3 : upd.LastName = "" <;> by_cases h4 : upd.Email = "" <;>
      simp [h1, h2, h3, h4]
  · intro v hv
    rw [List.mem_append] at hv
    rcases hv with hv | hv
    · rcases Builder.add_args _ _ _ _ hv with hv | hv
      · rcases Builder.add_args _ _ _ _ hv with hv | hv
        · rcases Builder.add_args _ _ _ _ hv with hv | hv
          · rcases Builder.add_args _ _ _ _ hv with hv | hv
            · simp at hv
            · simp at hv; exact Or.inl hv
          · simp at hv; exact Or.inr (Or.inl hv)
        · simp at hv; exact Or.inr (Or.inr (Or.inl hv))
      · simp at hv; exact Or.inr (Or.inr (Or.inr hv))
    · simp at hv
  · intro st hst
    obtain ⟨userID1, upd1, cu, cr, b, hA1, hB1, _, hcr, hb, _, hst2⟩ :=
      UpdateUser_exec_args env db req c st hst
    rw [hA] at hA1
    rw [hB] at hB1
    rw [hrole] at hcr
    cases hA1
    cases hB1
    cases hcr
    rw [buildUpdate_non_admin env.now upd role hna] at hb
    cases hb
    exact hst2
  · intro hself hr
    subst hself
    have hne : ¬ (upd.Username = "" ∧ upd.FirstName = "" ∧ upd.LastName = "" ∧
        upd.Email = "" ∧ upd.Role = "") := fun h => hr h.2.2.2.2
    constructor
    · intro k db1 hex hrep hk
      unfold UpdateUser
      simp only [hA, hB, hid, hrole, contextUserIDString, ne_eq, not_true_eq_false,
        if_false, hne, buildUpdate_non_admin env.now upd role hna, hex, Db.RowsAffected, hrep,
        if_true, hk]
    · intro h1 h2 h3 h4 hup hrep hfit huniq hex
      have hb : buildUpdate env.now upd (.str role) =
          some ⟨[("updated_at", 1)], [.time env.now], 2⟩ := by
        rw [buildUpdate_non_admin env.now upd role hna]
        simp [Builder.add, h1, h2, h3, h4]
      have hk : ((db.rows.countP (fun r => decide (r.ID = userID)) : Nat) : Int) ≠ 0 := by
        obtain ⟨r, hr1, hr2⟩ := hex
        have : 0 < db.rows.countP (fun r => decide (r.ID = userID)) :=
          List.countP_pos_iff.mpr ⟨r, hr1, by simpa using hr2⟩
        omega
      have hrender : renderUpdate [("updated_at", 1)] 2 =
          "UPDATE users SET updated_at = $1 WHERE id = $2" := by decide
      unfold UpdateUser
      simp only [hA, hB, hid, hrole, contextUserIDString, ne_eq, not_true_eq_false,
        if_false, hne, hb, List.singleton_append, ExecUpdate_touch db env.now userID hup hfit huniq,
        Db.RowsAffected, hrep, if_true, hk, hrender, and_self]

/-- C3 counterexample, on the plain user 7 (role `user`) and the sample storage, where account 7
exists. First, an update of `/users/7` with username `admin` and role `admin`: the executed
statement assigns no role, but its arguments are the update time, the text `admin` (the
username) and 7, so the text of the requested role is among them. Second, an update whose only
non-empty field is the role, sent to `/users/07`: `Atoi` parses the path id to 7, the caller's
own account, yet the answer is 403 `You can only update your own profile`, not 200. Third, an
update of `/users/7` with a non-empty role and the username `root`, which account 5 holds: the
statement violates the unique key of `username`, the storage refuses it and the answer is 500,
not 200. -/
theorem C3_counterexample_role_text_and_rejections :
    ((UpdateUser
        { sampleEnv with bindUpdate := fun _ => some ⟨"admin", "", "", "", "admin"⟩ } sampleDb
        (sampleRequest "PUT" [] [] "") (attached "7" (Itoa 7) "user")).calls
      = [.Exec ⟨"UPDATE users SET updated_at = $1, username = $2 WHERE id = $3",
          [.time 1000, .str "admin", .int 7]⟩] ∧
      SqlArg.str (UserUpdateRequest.mk "admin" "" "" "" "admin").Role ∈
        [SqlArg.time 1000, .str "admin", .int 7]) ∧
    (Atoi ((attached "07" (Itoa 7) "user").Param "id") = some 7 ∧
      (attached "07" (Itoa 7) "user").Get "user_id" = some (.str (Itoa 7)) ∧
      (sampleDb.rows.map (fun r => r.ID)).contains 7 = true ∧
      UpdateUser { sampleEnv with bindUpdate := fun _ => some ⟨"", "", "", "", "admin"⟩ } sampleDb
          (sampleRequest "PUT" [] [] "") (attached "07" (Itoa 7) "user")
        = ⟨⟨403, .error "Forbidden" "You can only update your own profile"⟩, [], sampleDb⟩) ∧
    (Atoi ((attached "7" (Itoa 7) "user").Param "id") = some 7 ∧
      UpdateUser { sampleEnv with bindUpdate := fun _ => some ⟨"root", "", "", "", "admin"⟩ }
          sampleDb (sampleRequest "PUT" [] [] "") (attached "7" (Itoa 7) "user")
        = ⟨⟨500, .error "Database error" "Failed to update user"⟩,
            [.Exec ⟨"UPDATE users SET updated_at = $1, username = $2 WHERE id = $3",
              [.time 1000, .str "root", .int 7]⟩], sampleDb⟩) := by
  decide

/-- C3 witness: the plain user 7 sends an update of the own account whose only non-empty field
is the role `admin`; the statement executed touches `updated_at` alone and the answer is 200.
With a first name `Bob` next to the role, the statement built has the columns `updated_at`,
`first_name` and the arguments the update time and `Bob`. -/
theorem C3_UpdateUser_non_admin_role_dropped_witness :
    Atoi ((attached "7" (Itoa 7) "user").Param "id") = some 7 ∧
    (attached "7" (Itoa 7) "user").Get "role" = some (.str "user") ∧
    (UpdateUser { sampleEnv with bindUpdate := fun _ => some ⟨"", "", "", "", "admin"⟩ } sampleDb
        (sampleRequest "PUT" [] [] "") (attached "7" (Itoa 7) "user")).response
      = ⟨200, .success "User updated successfully" .none⟩ ∧
    (UpdateUser { sampleEnv with bindUpdate := fun _ => some ⟨"", "", "", "", "admin"⟩ } sampleDb
        (sampleRequest "PUT" [] [] "") (attached "7" (Itoa 7) "user")).calls
      = [.Exec ⟨"UPDATE users SET updated_at = $1 WHERE id = $2", [.time 1000, .int 7]⟩] ∧
    (∃ b, buildUpdate 1000 ⟨"", "Bob", "", "", "admin"⟩ (.str "user") = some b ∧
      b.setParts.map Prod.fst = ["updated_at", "first_name"] ∧
      b.args = [SqlArg.time 1000, SqlArg.str "Bob"]) := by
  obtain ⟨_, _, _, _, _, _, _, _, _, h⟩ :=
    C3_UpdateUser_non_admin_role_dropped
      { sampleEnv with bindUpdate := fun _ => some ⟨"", "", "", "", "admin"⟩ } sampleDb
      (sampleRequest "PUT" [] [] "") (attached "7" (Itoa 7) "user") ⟨"", "", "", "", "admin"⟩
      "7" "user" 7 (by decide) rfl (by decide) (by decide) (by decide)
  have h2 := (h (by decide) (by decide)).2 rfl rfl rfl rfl (by decide) (by decide) (by decide)
    (by decide) ⟨sampleUser 7 "bob" "user", by decide, by decide⟩
  obtain ⟨b, hb, _, _, hcols, hargs, _⟩ :=
    C3_UpdateUser_non_admin_role_dropped
      { sampleEnv with bindUpdate := fun _ => some ⟨"", "Bob", "", "", "admin"⟩ } sampleDb
      (sampleRequest "PUT" [] [] "") (attached "7" (Itoa 7) "user") ⟨"", "Bob", "", "", "admin"⟩
      "7" "user" 7 (by decide) rfl (by decide) (by decide) (by decide)
  exact ⟨by decide, by decide, h2.1, h2.2, b, hb, hcols, hargs⟩

end GinApi

namespace GinApi

/-! ## The admin gate (C4, C7) and empty updates (C5) -/

/-- When `JWTAuth` aborts, the answer is 401 and the context is the one it was given. -/
theorem JWTAuth_abort (env : Env) (req : Request) (c c1 : Context) (r : Response)
    (h : JWTAuth env req c = .abort c1 r) : r.status = 401 ∧ c1 = c := by
  unfold JWTAuth at h
  simp only at h
  split at h
  · cases h; exact ⟨rfl, rfl⟩
  · split at h
    · cases h; exact ⟨rfl, rfl⟩
    · split at h
      · cases h; exact ⟨rfl, rfl⟩
      · split at h
        · cases h
        · cases h; exact ⟨rfl, rfl⟩

/-- The stage `AdminOnly` passes exactly the contexts whose role is the string `admin`, and
leaves them unchanged; every other context is answered 403. -/
theorem AdminOnly_spec (env : Env) (req : Request) (c : Context) :
    (c.Get "role" = some (.str "admin") → AdminOnly env req c = .next c) ∧
    (c.Get "role" ≠ some (.str "admin") →
      AdminOnly env req c = .abort c ⟨403, .error "Forbidden" "Admin access required"⟩) := by
  unfold AdminOnly
  constructor
  · intro h; simp [h]
  · intro h
    cases hr : c.Get "role" with
    | none => rfl
    | some role =>
      have : role ≠ CtxVal.str "admin" := by
        intro e; rw [e] at hr; exact h hr
      simp [this]

/-- The chain of `DELETE /api/v1/users/:id`. -/
theorem serve_delete (env : Env) (db : Db) (req : Request) (idParam : String)
    (hm : req.method = "DELETE") (hp : req.path = ["api", "v1", "users", idParam])
    (hid : idParam ≠ "") :
    serve env db req =
      runChain env db req [("JWTAuth", JWTAuth), ("AdminOnly", AdminOnly)]
        (some ("DeleteUser", DeleteUser)) ⟨[("id", idParam)], []⟩ ["CORS", "Logger", "Recovery"] := by
  simp [serve, SetupRoutes, findRoute, hm, hp, matchPath, hid, runChain, globalMiddlewares, CORS,
    passThrough]

/-- The chain of `GET /api/v1/users`. -/
theorem serve_list (env : Env) (db : Db) (req : Request)
    (hm : req.method = "GET") (hp : req.path = ["api", "v1", "users"]) :
    serve env db req =
      runChain env db req [("JWTAuth", JWTAuth), ("AdminOnly", AdminOnly)]
        (some ("GetAllUsers", GetAllUsers)) ⟨[], []⟩ ["CORS", "Logger", "Recovery"] := by
  simp [serve, SetupRoutes, findRoute, hm, hp, matchPath, runChain, globalMiddlewares, CORS,
    passThrough]

/-- An admin-gated chain on a request: when `JWTAuth` aborts, its response ends the request;
when it passes a context whose role is not `admin`, `AdminOnly` ends it with 403; otherwise
the handler runs. -/
theorem adminChain_spec (env : Env) (db : Db) (req : Request) (name : String)
    (h : Env → Db → Request → Context → Result) (c : Context) (ran : List String) :
    (∀ c1 r, JWTAuth env req c = .abort c1 r →
      runChain env db req [("JWTAuth", JWTAuth), ("AdminOnly", AdminOnly)] (some (name, h)) c ran
        = ⟨r, ran ++ ["JWTAuth"], [], db, c1⟩) ∧
    (∀ c1, JWTAuth env req c = .next c1 → c1.Get "role" ≠ some (.str "admin") →
      runChain env db req [("JWTAuth", JWTAuth), ("AdminOnly", AdminOnly)] (some (name, h)) c ran
        = ⟨⟨403, .error "Forbidden" "Admin access required"⟩, ran ++ ["JWTAuth", "AdminOnly"],
            [], db, c1⟩) ∧
    (∀ c1, JWTAuth env req c = .next c1 → c1.Get "role" = some (.str "admin") →
      runChain env db req [("JWTAuth", JWTAuth), ("AdminOnly", AdminOnly)] (some (name, h)) c ran
        = ⟨(h env db req c1).response, ran ++ ["JWTAuth", "AdminOnly", name],
            (h env db req c1).calls, (h env db req c1).db, c1⟩) := by
  refine ⟨?_, ?_, ?_⟩
  · intro c1 r hj
    simp [runChain, hj]
  · intro c1 hj hr
    simp [runChain, hj, (AdminOnly_spec env req c1).2 hr]
  · intro c1 hj hr
    simp [runChain, hj, (AdminOnly_spec env req c1).1 hr]

/-- C4 (amended): for every authenticated `DELETE /api/v1/users/:id` request by a caller whose
attached role is not `admin`, whether the path id is another account's or the caller's own, the
request ends at `AdminOnly` with 403 `Admin access required`; `DeleteUser` does not run, no
DELETE statement is executed and the storage is unchanged. -/
theorem C4_non_admin_delete_is_forbidden (env : Env) (db : Db) (req : Request)
    (idParam : String) (c1 : Context)
    (hm : req.method = "DELETE") (hp : req.path = ["api", "v1", "users", idParam])
    (hid : idParam ≠ "")
    (hauth : JWTAuth env req ⟨[("id", idParam)], []⟩ = .next c1)
    (hrole : c1.Get "role" ≠ some (.str "admin")) :
    (serve env db req).response = ⟨403, .error "Forbidden" "Admin access required"⟩ ∧
    (serve env db req).stages = ["CORS", "Logger", "Recovery", "JWTAuth", "AdminOnly"] ∧
    (serve env db req).calls = [] ∧
    (serve env db req).db = db := by
  rw [serve_delete env db req idParam hm hp hid,
    (adminChain_spec env db req "DeleteUser" DeleteUser _ _).2.1 c1 hauth hrole]
  simp

/-- C4 witness: the plain user 7 sends `DELETE /api/v1/users/5` with a valid session token and
is answered 403 by `AdminOnly`. -/
theorem C4_non_admin_delete_is_forbidden_witness :
    (serve sampleEnv sampleDb
      (sampleRequest "DELETE" ["api", "v1", "users", "5"] [("Authorization", "Bearer tok-bob")]
        "")).response = ⟨403, .error "Forbidden" "Admin access required"⟩ ∧
    (serve sampleEnv sampleDb
      (sampleRequest "DELETE" ["api", "v1", "users", "5"] [("Authorization", "Bearer tok-bob")]
        "")).calls = [] :=
  have h := C4_non_admin_delete_is_forbidden sampleEnv sampleDb
    (sampleRequest "DELETE" ["api", "v1", "users", "5"] [("Authorization", "Bearer tok-bob")] "")
    "5"
    (((((Context.mk [("id", "5")] []).Set "user_id" (.str "7")).Set "email"
      (.str "bob@x.com")).Set "username" (.str "bob")).Set "role" (.str "user"))
    rfl rfl (by decide) (by decide) (by decide)
  ⟨h.1, h.2.2.1⟩

/-- C4 counterexample: the plain user 7 (role `user`), authenticated with a valid session
token, sends `DELETE /api/v1/users/7`, the caller's own id. The answer is not the 400
self-deletion rejection: the request ends at `AdminOnly` with 403 and `DeleteUser` never
runs. -/
theorem C4_counterexample_own_id_is_403 :
    (serve sampleEnv sampleDb
      (sampleRequest "DELETE" ["api", "v1", "users", "7"] [("Authorization", "Bearer tok-bob")]
        "")).ctx.Get "user_id" = some (.str (Itoa 7)) ∧
    (serve sampleEnv sampleDb
      (sampleRequest "DELETE" ["api", "v1", "users", "7"] [("Authorization", "Bearer tok-bob")]
        "")).ctx.Get "role" = some (.str "user") ∧
    (serve sampleEnv sampleDb
      (sampleRequest "DELETE" ["api", "v1", "users", "7"] [("Authorization", "Bearer tok-bob")]
        "")).response = ⟨403, .error "Forbidden" "Admin access required"⟩ ∧
    (serve sampleEnv sampleDb
      (sampleRequest "DELETE" ["api", "v1", "users", "7"] [("Authorization", "Bearer tok-bob")]
        "")).stages = ["CORS", "Logger", "Recovery", "JWTAuth", "AdminOnly"] := by
  decide

/-- C5 (amended): for every authenticated `UpdateUser` request whose path id parses, whose
caller passes the ownership check (attached role `admin`, or attached `user_id` equal to the
path id text) and whose bound body has username, first name, last name, email and role all
empty, the answer is 400 `At least one field must be provided for update`, no storage call is
made and the storage is unchanged. -/
theorem C5_UpdateUser_empty_update_rejected (env : Env) (db : Db) (req : Request)
    (c : Context) (upd : UserUpdateRequest) (uid role : String) (userID : Int)
    (hA : Atoi (c.Param "id") = some userID)
    (hB : env.bindUpdate req.body = some upd)
    (hid : c.Get "user_id" = some (.str uid))
    (hrole : c.Get "role" = some (.str role))
    (hown : role = "admin" ∨ uid = c.Param "id")
    (hempty : upd.Username = "" ∧ upd.FirstName = "" ∧ upd.LastName = "" ∧ upd.Email = "" ∧
      upd.Role = "") :
    UpdateUser env db req c =
      ⟨⟨400, .error "Validation error" "At least one field must be provided for update"⟩, [],
        db⟩ := by
  unfold UpdateUser
  rcases hown with h | h
  · by_cases he : uid = c.Param "id" <;>
      simp [hA, hB, hid, hrole, contextUserIDString, CtxVal.assertString, h, he, hempty]
  · simp [hA, hB, hid, hrole, contextUserIDString, h, hempty]

/-- C5 witness: the plain user 7 sends an update of `/users/7` with every field empty. -/
theorem C5_UpdateUser_empty_update_rejected_witness :
    UpdateUser { sampleEnv with bindUpdate := fun _ => some ⟨"", "", "", "", ""⟩ } sampleDb
        (sampleRequest "PUT" [] [] "") (attached "7" "7" "user")
      = ⟨⟨400, .error "Validation error" "At least one field must be provided for update"⟩, [],
          sampleDb⟩ :=
  C5_UpdateUser_empty_update_rejected
    { sampleEnv with bindUpdate := fun _ => some ⟨"", "", "", "", ""⟩ } sampleDb
    (sampleRequest "PUT" [] [] "") (attached "7" "7" "user") ⟨"", "", "", "", ""⟩ "7" "user" 7
    (by decide) rfl (by decide) (by decide) (Or.inr (by decide)) (by decide)

/-- C5 counterexample: two authenticated update requests whose body has all five fields empty
and whose answer is not the 400 field validation. The plain user 7 addressing `/users/5` is
answered 403 `You can only update your own profile`; the same caller addressing `/users/abc` is
answered 400 `Invalid ID`. -/
theorem C5_counterexample_earlier_checks_win :
    (attached "5" "7" "user").Get "user_id" = some (.str "7") ∧
    UpdateUser { sampleEnv with bindUpdate := fun _ => some ⟨"", "", "", "", ""⟩ } sampleDb
        (sampleRequest "PUT" [] [] "") (attached "5" "7" "user")
      = ⟨⟨403, .error "Forbidden" "You can only update your own profile"⟩, [], sampleDb⟩ ∧
    UpdateUser { sampleEnv with bindUpdate := fun _ => some ⟨"", "", "", "", ""⟩ } sampleDb
        (sampleRequest "PUT" [] [] "") (attached "abc" "7" "user")
      = ⟨⟨400, .error "Invalid ID" "Invalid user ID format"⟩, [], sampleDb⟩ := by
  decide

end GinApi

namespace GinApi

/-! ## Credential extraction (C6) -/

/-- A text starts with `pre` exactly when it is `pre` followed by some text. -/
theorem isPrefixOf_iff_append (pre s : String) :
    pre.data.isPrefixOf s.data = true ↔ ∃ t : String, s = pre ++ t := by
  rw [List.isPrefixOf_iff_prefix]
  constructor
  · rintro ⟨t, ht⟩
    refine ⟨String.mk t, ?_⟩
    apply String.ext
    rw [String.data_append, ← ht]
  · rintro ⟨t, rfl⟩
    exact ⟨t.data, by rw [String.data_append]⟩

/-- On a text that does not start with the prefix, `TrimPrefix` changes nothing. -/
theorem TrimPrefix_of_not_prefix (s pre : String) (h : ∀ t : String, s ≠ pre ++ t) :
    TrimPrefix s pre = s := by
  unfold TrimPrefix
  have : ¬ (pre.data.isPrefixOf s.data = true) := by
    rw [isPrefixOf_iff_append]
    rintro ⟨t, ht⟩
    exact h t ht
  simp [this]

/-- On a text that starts with the prefix, `TrimPrefix` returns the rest. -/
theorem TrimPrefix_append (pre t : String) : TrimPrefix (pre ++ t) pre = t := by
  unfold TrimPrefix
  have : pre.data.isPrefixOf (pre ++ t).data = true :=
    (isPrefixOf_iff_append pre (pre ++ t)).mpr ⟨t, rfl⟩
  rw [if_pos this]
  apply String.ext
  simp [String.data_append]

/-- A text is never itself with the bearer prefix in front. -/
theorem bearer_append_ne (t : String) : t ≠ "Bearer " ++ t := by
  intro h
  have := congrArg String.length h
  rw [String.length_append] at this
  have h7 : "Bearer ".length = 7 := by decide
  omega

/-- C6: credential extraction by `JWTAuth`. For every request and context: when the
`Authorization` header is absent or empty, the request is aborted with 401 `Authorization
header missing`; when it is not empty but is not `Bearer ` (exactly, case-sensitively)
followed by some text, the request is aborted with 401 `Invalid authorization format`. In both
cases the context is handed back unchanged (no identity attached), and in a chain where
`JWTAuth` is the next stage no later stage runs and no collaborator is called. -/
theorem C6_JWTAuth_credential_extraction (env : Env) (db : Db) (req : Request) (c : Context)
    (ms : List (String × (Env → Request → Context → Step)))
    (h : Option (String × (Env → Db → Request → Context → Result))) (ran : List String) :
    ((req.headers.lookup "Authorization" = none ∨ req.headers.lookup "Authorization" = some "") →
      JWTAuth env req c = .abort c
        ⟨401, .error "Authorization header missing" "Authorization header is required"⟩ ∧
      runChain env db req (("JWTAuth", JWTAuth) :: ms) h c ran =
        ⟨⟨401, .error "Authorization header missing" "Authorization header is required"⟩,
          ran ++ ["JWTAuth"], [], db, c⟩) ∧
    (req.GetHeader "Authorization" ≠ "" →
      (∀ t : String, req.GetHeader "Authorization" ≠ "Bearer " ++ t) →
      JWTAuth env req c = .abort c
        ⟨401, .error "Invalid authorization format"
          "Authorization header must be in format 'Bearer <token>'"⟩ ∧
      runChain env db req (("JWTAuth", JWTAuth) :: ms) h c ran =
        ⟨⟨401, .error "Invalid authorization format"
          "Authorization header must be in format 'Bearer <token>'"⟩,
          ran ++ ["JWTAuth"], [], db, c⟩) := by
  constructor
  · intro hh
    have he : req.GetHeader "Authorization" = "" := by
      unfold Request.GetHeader
      rcases hh with hh | hh <;> simp [hh]
    have hj : JWTAuth env req c = .abort c
        ⟨401, .error "Authorization header missing" "Authorization header is required"⟩ := by
      unfold JWTAuth
      simp [he]
    exact ⟨hj, by simp [runChain, hj]⟩
  · intro hne hshape
    have hj : JWTAuth env req c = .abort c
        ⟨401, .error "Invalid authorization format"
          "Authorization header must be in format 'Bearer <token>'"⟩ := by
      unfold JWTAuth
      simp [hne, TrimPrefix_of_not_prefix _ _ hshape]
    exact ⟨hj, by simp [runChain, hj]⟩

/-- C6 witness: a request without the header, and a request whose header spells the scheme in
lower case, both sent to `GET /api/v1/profile`. -/
theorem C6_JWTAuth_credential_extraction_witness :
    JWTAuth sampleEnv (sampleRequest "GET" ["api", "v1", "profile"] [] "") ⟨[], []⟩ =
      .abort ⟨[], []⟩
        ⟨401, .error "Authorization header missing" "Authorization header is required"⟩ ∧
    JWTAuth sampleEnv
        (sampleRequest "GET" ["api", "v1", "profile"] [("Authorization", "bearer tok-bob")] "")
        ⟨[], []⟩ =
      .abort ⟨[], []⟩
        ⟨401, .error "Invalid authorization format"
          "Authorization header must be in format 'Bearer <token>'"⟩ :=
  ⟨((C6_JWTAuth_credential_extraction sampleEnv sampleDb
      (sampleRequest "GET" ["api", "v1", "profile"] [] "") ⟨[], []⟩ [] none []).1
      (Or.inl (by decide))).1,
   ((C6_JWTAuth_credential_extraction sampleEnv sampleDb
      (sampleRequest "GET" ["api", "v1", "profile"] [("Authorization", "bearer tok-bob")] "")
      ⟨[], []⟩ [] none []).2 (by decide)
      (fun t ht => by
        have h0 := congrArg (fun s : String => s.data.head?) ht
        simp [Request.GetHeader, sampleRequest, String.data_append] at h0)).1⟩

end GinApi

namespace GinApi

/-! ## Admin-gated handlers (C7) -/

/-- C7: the admin-gated handlers run only for authenticated admins. For every request routed to
`GET /api/v1/users` (handler `GetAllUsers`) or `DELETE /api/v1/users/:id` (handler
`DeleteUser`): the handler is among the stages that ran if and only if `JWTAuth` passed the
request on and the role it attached is exactly the string `admin`; when `JWTAuth` rejects, the
request ends there with its 401 response; when the attached role differs, the request ends at
`AdminOnly` with 403 `Admin access required`; in neither case does a later stage run or is a
collaborator called. `AdminOnly` answers 403 on every context whose role is missing or not the
string `admin`. -/
theorem C7_admin_gated_handlers_run_only_for_admins (env : Env) (db : Db) (req : Request)
    (name : String) (ps : List (String × String))
    (hroute :
      (req.method = "GET" ∧ req.path = ["api", "v1", "users"] ∧ name = "GetAllUsers" ∧ ps = []) ∨
      (∃ idParam, idParam ≠ "" ∧ req.method = "DELETE" ∧
        req.path = ["api", "v1", "users", idParam] ∧ name = "DeleteUser" ∧
        ps = [("id", idParam)])) :
    (name ∈ (serve env db req).stages ↔
      ∃ c1, JWTAuth env req ⟨ps, []⟩ = .next c1 ∧ c1.Get "role" = some (.str "admin")) ∧
    (∀ c1 r, JWTAuth env req ⟨ps, []⟩ = .abort c1 r →
      r.status = 401 ∧
      serve env db req = ⟨r, ["CORS", "Logger", "Recovery", "JWTAuth"], [], db, ⟨ps, []⟩⟩) ∧
    (∀ c1, JWTAuth env req ⟨ps, []⟩ = .next c1 → c1.Get "role" ≠ some (.str "admin") →
      serve env db req =
        ⟨⟨403, .error "Forbidden" "Admin access required"⟩,
          ["CORS", "Logger", "Recovery", "JWTAuth", "AdminOnly"], [], db, c1⟩) ∧
    (∀ c : Context, c.Get "role" ≠ some (.str "admin") →
      AdminOnly env req c = .abort c ⟨403, .error "Forbidden" "Admin access required"⟩) := by
  have hserve : ∃ h, serve env db req =
      runChain env db req [("JWTAuth", JWTAuth), ("AdminOnly", AdminOnly)] (some (name, h))
        ⟨ps, []⟩ ["CORS", "Logger", "Recovery"] ∧
      (name = "GetAllUsers" ∨ name = "DeleteUser") := by
    rcases hroute with ⟨hm, hp, hn, hps⟩ | ⟨idParam, hid, hm, hp, hn, hps⟩
    · subst hn; subst hps
      exact ⟨GetAllUsers, serve_list env db req hm hp, Or.inl rfl⟩
    · subst hn; subst hps
      exact ⟨DeleteUser, serve_delete env db req idParam hm hp hid, Or.inr rfl⟩
  obtain ⟨h, hs, hname⟩ := hserve
  obtain ⟨habort, hdenied, hadmin⟩ :=
    adminChain_spec env db req name h ⟨ps, []⟩ ["CORS", "Logger", "Recovery"]
  refine ⟨?_, ?_, ?_, ?_⟩
  · rw [hs]
    cases hj : JWTAuth env req ⟨ps, []⟩ with
    | abort c1 r =>
      rw [habort c1 r hj]
      constructor
      · intro hmem
        rcases hname with hn | hn <;> (rw [hn] at hmem; simp at hmem)
      · rintro ⟨c2, h2, _⟩
        cases h2
    | next c1 =>
      by_cases hr : c1.Get "role" = some (.str "admin")
      · rw [hadmin c1 hj hr]
        constructor
        · intro _
          exact ⟨c1, rfl, hr⟩
        · intro _
          simp
      · rw [hdenied c1 hj hr]
        constructor
        · intro hmem
          rcases hname with hn | hn <;> (rw [hn] at hmem; simp at hmem)
        · rintro ⟨c2, h2, hr2⟩
          cases h2
          exact absurd hr2 hr
  · intro c1 r hj
    obtain ⟨h401, hc⟩ := JWTAuth_abort env req _ c1 r hj
    refine ⟨h401, ?_⟩
    rw [hs, habort c1 r hj, hc]
    rfl
  · intro c1 hj hr
    rw [hs, hdenied c1 hj hr]
    rfl
  · intro c hr
    exact (AdminOnly_spec env req c).2 hr

/-- C7 witness: `GET /api/v1/users` sent by the admin (the handler runs) and by the plain user
(the handler does not run, and the answer is 403). -/
theorem C7_admin_gated_handlers_run_only_for_admins_witness :
    "GetAllUsers" ∈ (serve sampleEnv sampleDb
      (sampleRequest "GET" ["api", "v1", "users"] [("Authorization", "Bearer tok-root")]
        "")).stages ∧
    serve sampleEnv sampleDb
      (sampleRequest "GET" ["api", "v1", "users"] [("Authorization", "Bearer tok-bob")] "") =
      ⟨⟨403, .error "Forbidden" "Admin access required"⟩,
        ["CORS", "Logger", "Recovery", "JWTAuth", "AdminOnly"], [], sampleDb,
        ((((Context.mk [] []).Set "user_id" (.str "7")).Set "email" (.str "bob@x.com")).Set
          "username" (.str "bob")).Set "role" (.str "user")⟩ :=
  ⟨(C7_admin_gated_handlers_run_only_for_admins sampleEnv sampleDb
      (sampleRequest "GET" ["api", "v1", "users"] [("Authorization", "Bearer tok-root")] "")
      "GetAllUsers" [] (Or.inl ⟨rfl, rfl, rfl, rfl⟩)).1.mpr
      ⟨((((Context.mk [] []).Set "user_id" (.str "5")).Set "email" (.str "root@x.com")).Set
          "username" (.str "root")).Set "role" (.str "admin"), by decide, by decide⟩,
   (C7_admin_gated_handlers_run_only_for_admins sampleEnv sampleDb
      (sampleRequest "GET" ["api", "v1", "users"] [("Authorization", "Bearer tok-bob")] "")
      "GetAllUsers" [] (Or.inl ⟨rfl, rfl, rfl, rfl⟩)).2.2.1 _ (by decide) (by decide)⟩

end GinApi

namespace GinApi

/-! ## Session tokens (C8) -/

/-- Decoding the payload written for session claims gives the claims back. -/
theorem ofMap_toMap (c : JWTClaims) : JWTClaims.ofMap c.toMap = some c := by
  unfold JWTClaims.ofMap JWTClaims.toMap
  by_cases h1 : c.ExpiresAt = 0 <;> by_cases h2 : c.IssuedAt = 0 <;>
    by_cases h3 : c.NotBefore = 0 <;>
    simp [h1, h2, h3, strField, numField, List.lookup] <;>
    (cases c; simp_all)

/-- The header `Bearer <token>` is split into the token by `JWTAuth`, which then answers
according to `ParseWithClaims`. -/
theorem JWTAuth_bearer (env : Env) (req : Request) (c : Context) (tok : String)
    (hhdr : req.GetHeader "Authorization" = "Bearer " ++ tok) :
    JWTAuth env req c =
      match ParseWithClaims env.jwt env.now tok
          (fun alg => if isHMAC alg then some (jwtSecret env) else none) with
      | none => .abort c ⟨401, .error "Invalid token" "Token validation failed"⟩
      | some token =>
        if token.Valid then
          .next ((((c.Set "user_id" (.str token.Claims.UserID)).Set "email"
            (.str token.Claims.Email)).Set "username" (.str token.Claims.Username)).Set "role"
            (.str token.Claims.Role))
        else
          .abort c ⟨401, .error "Invalid token claims" "Token claims validation failed"⟩ := by
  have hne : ¬ ("Bearer " ++ tok = "") := by
    intro h
    have := congrArg String.length h
    rw [String.length_append] at this
    have h7 : "Bearer ".length = 7 := by decide
    have h0 : "".length = 0 := by decide
    omega
  unfold JWTAuth
  simp only [hhdr, hne, if_false, TrimPrefix_append, bearer_append_ne tok]

/-- The table-backed sample library honours the library contract. -/
theorem sampleTokens_roundTrips : (tableJwt sampleTokens).RoundTrips := by
  intro alg m key t h
  simp only [tableJwt, sampleTokens, List.find?_cons, List.find?_nil] at h
  split at h
  · rename_i h1
    simp only [Option.map_some', Option.some.injEq] at h
    simp only [decide_eq_true_eq] at h1
    obtain ⟨rfl, rfl, rfl⟩ := h1
    subst h
    decide
  · split at h
    · rename_i h1
      simp only [Option.map_some', Option.some.injEq] at h
      simp only [decide_eq_true_eq] at h1
      obtain ⟨rfl, rfl, rfl⟩ := h1
      subst h
      decide
    · simp at h

/-- C8: session token round trip and validity window. Let the token library honour its
contract (what it signs, it decodes and verifies). For every account `u`, the token returned
by `GenerateJWT` at issue time `env0.now`, presented as `Bearer <token>` to `JWTAuth` under
the same library and secret at time `env.now`: when `env0.now <= env.now < env0.now + 24h` it
is accepted, and the context passed on reads back `user_id = Itoa u.ID`, `email = u.Email`,
`username = u.Username` and `role = u.Role` (it is the given context with these four keys set,
the route parameters unchanged); when the expiry `env0.now + 24h` is not zero and is at or
before `env.now`, it is rejected with 401 and the context is handed back as it was. -/
theorem C8_session_token_round_trip (env0 env : Env) (u : User) (tok : String)
    (req : Request) (c : Context)
    (hlib : env.jwt = env0.jwt) (hsecret : jwtSecret env = jwtSecret env0)
    (hcontract : env0.jwt.RoundTrips)
    (hgen : GenerateJWT env0 u = some tok)
    (hhdr : req.GetHeader "Authorization" = "Bearer " ++ tok) :
    (env0.now ≤ env.now → env.now < env0.now + 3600 * 24 →
      ∃ c1, JWTAuth env req c = .next c1 ∧
        c1 = (((c.Set "user_id" (.str (Itoa u.ID))).Set "email" (.str u.Email)).Set "username"
          (.str u.Username)).Set "role" (.str u.Role) ∧
        c1.Get "user_id" = some (.str (Itoa u.ID)) ∧
        c1.Get "email" = some (.str u.Email) ∧
        c1.Get "username" = some (.str u.Username) ∧
        c1.Get "role" = some (.str u.Role) ∧
        c1.Params = c.Params) ∧
    (env0.now + 3600 * 24 ≠ 0 → env0.now + 3600 * 24 ≤ env.now →
      JWTAuth env req c = .abort c ⟨401, .error "Invalid token" "Token validation failed"⟩) := by
  unfold GenerateJWT at hgen
  obtain ⟨hdec, hver⟩ := hcontract _ _ _ _ hgen
  rw [← hlib, ← hsecret] at hver
  rw [← hlib] at hdec
  rw [JWTAuth_bearer env req c tok hhdr]
  constructor
  · intro h1 h2
    have hvalid : JWTClaims.Valid
        { UserID := Itoa u.ID, Email := u.Email, Username := u.Username, Role := u.Role,
          ExpiresAt := env0.now + 86400, IssuedAt := env0.now, NotBefore := 0 } env.now
        = true := by
      have h3 : env.now < env0.now + 86400 := by omega
      simp [JWTClaims.Valid, h1, h3]
    refine ⟨_, ?_, rfl, ?_, ?_, ?_, ?_, ?_⟩
    · simp [ParseWithClaims, hdec, ofMap_toMap, isHMAC, hvalid, hver]
    · simp [Context.Set, Context.Get, List.lookup]
    · simp [Context.Set, Context.Get, List.lookup]
    · simp [Context.Set, Context.Get, List.lookup]
    · simp [Context.Set, Context.Get, List.lookup]
    · simp [Context.Set]
  · intro h1 h2
    have hvalid : JWTClaims.Valid
        { UserID := Itoa u.ID, Email := u.Email, Username := u.Username, Role := u.Role,
          ExpiresAt := env0.now + 86400, IssuedAt := env0.now, NotBefore := 0 } env.now
        = false := by
      have h3 : ¬ env.now < env0.now + 86400 := by omega
      have h4 : ¬ env0.now + 86400 = 0 := by omega
      simp [JWTClaims.Valid, h4, h3]
    simp [ParseWithClaims, hdec, ofMap_toMap, isHMAC, hvalid]

/-- C8 witness: the token issued to the admin account 5 at time 900 is accepted at time 1000,
and the context passed on reads back user id `5`, email `root@x.com`, username `root` and role
`admin`; at time 87300, its expiry, it is rejected. -/
theorem C8_session_token_round_trip_witness :
    GenerateJWT { sampleEnv with now := 900 } (sampleUser 5 "root" "admin") = some "tok-root" ∧
    (∃ c1, JWTAuth sampleEnv
        (sampleRequest "GET" [] [("Authorization", "Bearer tok-root")] "") ⟨[], []⟩ = .next c1 ∧
      c1.Get "user_id" = some (.str "5") ∧ c1.Get "email" = some (.str "root@x.com") ∧
      c1.Get "username" = some (.str "root") ∧ c1.Get "role" = some (.str "admin")) ∧
    JWTAuth { sampleEnv with now := 87300 }
        (sampleRequest "GET" [] [("Authorization", "Bearer tok-root")] "") ⟨[], []⟩ =
      .abort ⟨[], []⟩ ⟨401, .error "Invalid token" "Token validation failed"⟩ := by
  obtain ⟨c1, hj, _, hid, he, hu, hr, _⟩ :=
    (C8_session_token_round_trip { sampleEnv with now := 900 } sampleEnv
      (sampleUser 5 "root" "admin") "tok-root"
      (sampleRequest "GET" [] [("Authorization", "Bearer tok-root")] "") ⟨[], []⟩ rfl rfl
      sampleTokens_roundTrips (by decide) (by decide)).1 (by decide) (by decide)
  have hid2 : Itoa (sampleUser 5 "root" "admin").ID = "5" := by decide
  rw [hid2] at hid
  exact ⟨by decide, ⟨c1, hj, hid, he, hu, hr⟩,
    (C8_session_token_round_trip { sampleEnv with now := 900 } { sampleEnv with now := 87300 }
      (sampleUser 5 "root" "admin") "tok-root"
      (sampleRequest "GET" [] [("Authorization", "Bearer tok-root")] "") ⟨[], []⟩ rfl rfl
      sampleTokens_roundTrips (by decide) (by decide)).2 (by decide) (by decide)⟩

end GinApi

namespace GinApi

/-! ## Duplicate signup (C9) and failed login (C10) -/

/-- C9: a duplicate signup is rejected without writing. For every storage state and every
bound signup request with non-empty email, username and password such that some stored account
has the same email or the same username: the only collaborator call is the duplicate check (no
INSERT is executed, no token is issued), the storage is unchanged, the response carries no
token, and when the storage answers the check the response is 409 `User exists`. -/
theorem C9_duplicate_signup_rejected (env : Env) (db : Db) (req : Request) (c : Context)
    (su : SignupRequest)
    (hB : env.bindSignup req.body = some su)
    (he : su.Email ≠ "") (hp : su.Password ≠ "") (hu : su.Username ≠ "")
    (hdup : ∃ r ∈ db.rows, r.Email = su.Email ∨ r.Username = su.Username) :
    (db.up = true →
      (UserSignup env db req c).response =
        ⟨409, .error "User exists" "User with this email or username already exists"⟩) ∧
    (UserSignup env db req c).calls = [.Query ⟨sqlCount, [.str su.Email, .str su.Username]⟩] ∧
    (UserSignup env db req c).db = db ∧
    (∀ t rt u m, (UserSignup env db req c).response.body ≠ .auth t rt u m) := by
  have hcount : 0 < db.rows.countP
      (fun r => decide (r.Email = su.Email) || decide (r.Username = su.Username)) := by
    obtain ⟨r, hr, h⟩ := hdup
    exact List.countP_pos_iff.mpr ⟨r, hr, by simpa using h⟩
  have hpos : ((db.rows.countP
      (fun r => decide (r.Email = su.Email) || decide (r.Username = su.Username)) : Nat) : Int)
      > 0 := by omega
  unfold UserSignup
  by_cases hup : db.up = true
  · simp [hB, he, hp, hu, Db.countByEmailOrUsername, hup, hpos]
  · simp [hB, he, hp, hu, Db.countByEmailOrUsername, hup]

/-- C9 witness: a signup reusing the email of the stored account `bob` under a new username. -/
theorem C9_duplicate_signup_rejected_witness :
    (UserSignup
        { sampleEnv with
          bindSignup := fun _ => some ⟨"bobby", "", "", "bob@x.com", "secret123", ""⟩ }
        sampleDb (sampleRequest "POST" [] [] "") ⟨[], []⟩).response =
      ⟨409, .error "User exists" "User with this email or username already exists"⟩ ∧
    (UserSignup
        { sampleEnv with
          bindSignup := fun _ => some ⟨"bobby", "", "", "bob@x.com", "secret123", ""⟩ }
        sampleDb (sampleRequest "POST" [] [] "") ⟨[], []⟩).calls =
      [.Query ⟨sqlCount, [.str "bob@x.com", .str "bobby"]⟩] ∧
    (UserSignup
        { sampleEnv with
          bindSignup := fun _ => some ⟨"bobby", "", "", "bob@x.com", "secret123", ""⟩ }
        sampleDb (sampleRequest "POST" [] [] "") ⟨[], []⟩).db = sampleDb := by
  have h := C9_duplicate_signup_rejected
    { sampleEnv with
      bindSignup := fun _ => some ⟨"bobby", "", "", "bob@x.com", "secret123", ""⟩ }
    sampleDb (sampleRequest "POST" [] [] "") ⟨[], []⟩
    ⟨"bobby", "", "", "bob@x.com", "secret123", ""⟩ rfl (by decide) (by decide) (by decide)
    ⟨sampleUser 7 "bob" "user", by decide, Or.inl (by decide)⟩
  exact ⟨h.1 (by decide), h.2.1, h.2.2.1⟩

/-- C10: a failed login issues no token and does not reveal which credential was wrong. For
every storage state and every bound login request with non-empty email and password such that
no stored account with that email has a hash verifying the supplied password (there is no such
account, or its hash does not verify): neither `GenerateJWT` nor `GenerateRefreshToken` is
called, the storage is unchanged, the response carries no token, and when the storage answers
the lookup the response is 401 `Authentication failed` / `Invalid email or password`, the same
in both cases. -/
theorem C10_failed_login_issues_no_token (env : Env) (db : Db) (req : Request) (c : Context)
    (lr : LoginRequest)
    (hB : env.bindLogin req.body = some lr)
    (he : lr.Email ≠ "") (hp : lr.Password ≠ "")
    (hfail : ∀ r ∈ db.rows, r.Email = lr.Email →
      env.CompareHashAndPassword r.Password lr.Password = false) :
    (db.up = true →
      (UserLogin env db req c).response =
        ⟨401, .error "Authentication failed" "Invalid email or password"⟩) ∧
    (UserLogin env db req c).calls = [.Query ⟨sqlSelectByEmail, [.str lr.Email]⟩] ∧
    (UserLogin env db req c).db = db ∧
    (∀ t rt u m, (UserLogin env db req c).response.body ≠ .auth t rt u m) := by
  unfold UserLogin
  by_cases hup : db.up = true
  · cases hf : db.rows.find? (fun r => decide (r.Email = lr.Email)) with
    | none => simp [hB, he, hp, Db.selectByEmail, hup, hf]
    | some r =>
      have hr : r ∈ db.rows := List.mem_of_find?_eq_some hf
      have hre : r.Email = lr.Email := by simpa using List.find?_some hf
      have hcmp := hfail r hr hre
      simp [hB, he, hp, Db.selectByEmail, hup, hf, hcmp]
  · simp [hB, he, hp, Db.selectByEmail, hup]

/-- C10 witness: a login with an email no account has, and a login of `bob` with a wrong
password, get the same 401 response. -/
theorem C10_failed_login_issues_no_token_witness :
    (UserLogin { sampleEnv with bindLogin := fun _ => some ⟨"nobody@x.com", "secret123"⟩ }
        sampleDb (sampleRequest "POST" [] [] "") ⟨[], []⟩).response =
      ⟨401, .error "Authentication failed" "Invalid email or password"⟩ ∧
    (UserLogin { sampleEnv with bindLogin := fun _ => some ⟨"bob@x.com", "wrong"⟩ }
        sampleDb (sampleRequest "POST" [] [] "") ⟨[], []⟩).response =
      ⟨401, .error "Authentication failed" "Invalid email or password"⟩ :=
  ⟨(C10_failed_login_issues_no_token
      { sampleEnv with bindLogin := fun _ => some ⟨"nobody@x.com", "secret123"⟩ } sampleDb
      (sampleRequest "POST" [] [] "") ⟨[], []⟩ ⟨"nobody@x.com", "secret123"⟩ rfl (by decide)
      (by decide) (by decide)).1 (by decide),
   (C10_failed_login_issues_no_token
      { sampleEnv with bindLogin := fun _ => some ⟨"bob@x.com", "wrong"⟩ } sampleDb
      (sampleRequest "POST" [] [] "") ⟨[], []⟩ ⟨"bob@x.com", "wrong"⟩ rfl (by decide)
      (by decide) (by decide)).1 (by decide)⟩

end GinApi

namespace GinApi

/-! ## Successful signup (C11) and roles (C12) -/

/-- A table-backed library whose token texts are pairwise distinct honours the library
contract. -/
theorem tableJwt_roundTrips (table : List (String × String × MapClaims × String))
    (hnd : (table.map Prod.fst).Nodup) : (tableJwt table).RoundTrips := by
  intro alg m key t h
  simp only [tableJwt, Option.map_eq_some'] at h
  obtain ⟨e, hfind, rfl⟩ := h
  have hmem : e ∈ table := List.mem_of_find?_eq_some hfind
  have hpred := List.find?_some hfind
  simp only [decide_eq_true_eq] at hpred
  obtain ⟨rfl, rfl, rfl⟩ := hpred
  have hlook : table.lookup e.1 = some e.2 := by
    clear hfind
    induction table with
    | nil => cases hmem
    | cons x rest ih =>
      obtain ⟨k, v⟩ := x
      simp only [List.map_cons, List.nodup_cons, List.mem_map, not_exists, not_and] at hnd
      rcases List.mem_cons.mp hmem with h1 | h1
      · subst h1
        simp [List.lookup]
      · have hne : e.1 ≠ k := fun hk => hnd.1 e h1 hk
        have hb : (e.1 == k) = false := by simpa using hne
        simp only [List.lookup, hb]
        exact ih hnd.2 h1
  simp [tableJwt, hlook]

/-- A signup answered 201 went through every step: the body bound with the required fields,
no duplicate was counted, the password was hashed, the insert returned the new id, and both
tokens were issued for the account returned. -/
theorem UserSignup_created (env : Env) (db : Db) (req : Request) (c : Context)
    (h201 : (UserSignup env db req c).response.status = 201) :
    ∃ su hashed userID db1 token refresh,
      env.bindSignup req.body = some su ∧
      su.Email ≠ "" ∧ su.Password ≠ "" ∧ su.Username ≠ "" ∧
      env.GenerateFromPassword su.Password = some hashed ∧
      db.insertUser su.Username su.FirstName su.LastName su.Email hashed
        (if su.Role = "" then "user" else su.Role) env.now env.now = (some userID, db1) ∧
      GenerateJWT env
        { ID := userID, Username := su.Username, FirstName := su.FirstName,
          LastName := su.LastName, Email := su.Email, Password := "",
          Role := if su.Role = "" then "user" else su.Role, SessionID := "",
          SessionToken := "", RefreshToken := "", CreatedAt := env.now, UpdatedAt := env.now }
        = some token ∧
      GenerateRefreshToken env
        { ID := userID, Username := su.Username, FirstName := su.FirstName,
          LastName := su.LastName, Email := su.Email, Password := "",
          Role := if su.Role = "" then "user" else su.Role, SessionID := "",
          SessionToken := "", RefreshToken := "", CreatedAt := env.now, UpdatedAt := env.now }
        = some refresh ∧
      (UserSignup env db req c).response =
        ⟨201, .auth token refresh
          { ID := userID, Username := su.Username, FirstName := su.FirstName,
            LastName := su.LastName, Email := su.Email, Password := "",
            Role := if su.Role = "" then "user" else su.Role, SessionID := "",
            SessionToken := "", RefreshToken := "", CreatedAt := env.now, UpdatedAt := env.now }
          "User created successfully"⟩ ∧
      (UserSignup env db req c).db = db1 := by
  generalize hr : UserSignup env db req c = r at h201 ⊢
  unfold UserSignup at hr
  split at hr
  · subst hr; simp at h201
  · rename_i su hB
    split at hr
    · subst hr; simp at h201
    · rename_i hreq
      simp only at hr
      split at hr
      · subst hr; simp at h201
      · split at hr
        · subst hr; simp at h201
        · split at hr
          · subst hr; simp at h201
          · rename_i hashed hH
            split at hr
            · subst hr; simp at h201
            · rename_i userID db1 hI
              split at hr
              · subst hr; simp at h201
              · rename_i token hT
                split at hr
                · subst hr; simp at h201
                · rename_i refresh hR
                  subst hr
                  simp only [not_or] at hreq
                  exact ⟨su, hashed, userID, db1, token, refresh, hB, hreq.1, hreq.2.1,
                    hreq.2.2, hH, hI, hT, hR, rfl, rfl⟩

/-- C11 (amended): for every signup request that succeeds, `UserSignup` answers 201 with the
account, a session token and a refresh token. The returned account has the id returned by the
insert; its password field is written and is the empty string, so it carries neither the
plaintext password nor a (non-empty) stored hash. Both tokens are signed over a payload whose
`user_id` is the decimal string of the id returned by the insert, and under a library that
decodes what it signs both decode to that `user_id`. -/
theorem C11_signup_success_response (env : Env) (db : Db) (req : Request) (c : Context)
    (h201 : (UserSignup env db req c).response.status = 201) :
    ∃ su hashed userID token refresh user,
      env.bindSignup req.body = some su ∧
      env.GenerateFromPassword su.Password = some hashed ∧
      (db.insertUser su.Username su.FirstName su.LastName su.Email hashed
        (if su.Role = "" then "user" else su.Role) env.now env.now).1 = some userID ∧
      (UserSignup env db req c).response =
        ⟨201, .auth token refresh user "User created successfully"⟩ ∧
      user.ID = userID ∧
      user.Password = "" ∧ user.Password ≠ su.Password ∧ (hashed ≠ "" → user.Password ≠ hashed) ∧
      user.toJSON.lookup "password" = some (JVal.str "") ∧
      (∃ p, env.jwt.SignedString "HS256" p (jwtSecret env) = some token ∧
        p.lookup "user_id" = some (JVal.str (Itoa userID))) ∧
      (∃ p, env.jwt.SignedString "HS256" p (jwtSecret env) = some refresh ∧
        p.lookup "user_id" = some (JVal.str (Itoa userID))) ∧
      (env.jwt.RoundTrips →
        (∃ p, env.jwt.Decode token = some ("HS256", p) ∧
          p.lookup "user_id" = some (JVal.str (Itoa userID))) ∧
        (∃ p, env.jwt.Decode refresh = some ("HS256", p) ∧
          p.lookup "user_id" = some (JVal.str (Itoa userID)))) := by
  obtain ⟨su, hashed, userID, db1, token, refresh, hB, _, hp, _, hH, hI, hT, hR, hresp, _⟩ :=
    UserSignup_created env db req c h201
  have hT2 : ∃ p, env.jwt.SignedString "HS256" p (jwtSecret env) = some token ∧
      p.lookup "user_id" = some (JVal.str (Itoa userID)) := by
    unfold GenerateJWT at hT
    exact ⟨_, hT, by simp [JWTClaims.toMap, List.lookup]⟩
  have hR2 : ∃ p, env.jwt.SignedString "HS256" p (jwtSecret env) = some refresh ∧
      p.lookup "user_id" = some (JVal.str (Itoa userID)) := by
    unfold GenerateRefreshToken at hR
    exact ⟨_, hR, by simp [List.lookup]⟩
  refine ⟨su, hashed, userID, token, refresh, _, hB, hH, by rw [hI], hresp, rfl, rfl,
    fun h => hp h.symm, fun hne h => hne h.symm, ?_, hT2, hR2, ?_⟩
  · simp [User.toJSON, List.lookup]
  · intro hc
    obtain ⟨p1, hs1, hl1⟩ := hT2
    obtain ⟨p2, hs2, hl2⟩ := hR2
    exact ⟨⟨p1, (hc _ _ _ _ hs1).1, hl1⟩, ⟨p2, (hc _ _ _ _ hs2).1, hl2⟩⟩

/-- C11 witness: `carol` signs up on the sample storage and is answered 201 with the account
of id 8, an empty password and the two tokens issued for id 8. -/
theorem C11_signup_success_response_witness :
    (UserSignup (signupEnv ⟨"carol", "", "", "carol@x.com", "secret123", ""⟩) sampleDb
      (sampleRequest "POST" [] [] "") ⟨[], []⟩).response.status = 201 ∧
    ∃ token refresh user,
      (UserSignup (signupEnv ⟨"carol", "", "", "carol@x.com", "secret123", ""⟩) sampleDb
        (sampleRequest "POST" [] [] "") ⟨[], []⟩).response =
        ⟨201, .auth token refresh user "User created successfully"⟩ ∧
      user.Password = "" := by
  obtain ⟨_, _, _, token, refresh, user, _, _, _, hresp, _, hpw, _⟩ :=
    C11_signup_success_response (signupEnv ⟨"carol", "", "", "carol@x.com", "secret123", ""⟩)
      sampleDb (sampleRequest "POST" [] [] "") ⟨[], []⟩ (by decide)
  exact ⟨by decide, token, refresh, user, hresp, hpw⟩

/-- C11 counterexample: `carol` signs up successfully; the account returned in the 201 response
is written with a `password` field (holding the empty string): the field is not absent. -/
theorem C11_counterexample_password_field_written :
    (UserSignup (signupEnv ⟨"carol", "", "", "carol@x.com", "secret123", ""⟩) sampleDb
      (sampleRequest "POST" [] [] "") ⟨[], []⟩).response =
      ⟨201, .auth "tok-carol" "ref-carol"
        { ID := 8, Username := "carol", FirstName := "", LastName := "", Email := "carol@x.com",
          Password := "", Role := "user", SessionID := "", SessionToken := "",
          RefreshToken := "", CreatedAt := 1000, UpdatedAt := 1000 }
        "User created successfully"⟩ ∧
    (User.toJSON
        { ID := 8, Username := "carol", FirstName := "", LastName := "", Email := "carol@x.com",
          Password := "", Role := "user", SessionID := "", SessionToken := "",
          RefreshToken := "", CreatedAt := 1000, UpdatedAt := 1000 }).lookup "password"
      = some (JVal.str "") ∧
    (User.toJSON
        { ID := 8, Username := "carol", FirstName := "", LastName := "", Email := "carol@x.com",
          Password := "", Role := "user", SessionID := "", SessionToken := "",
          RefreshToken := "", CreatedAt := 1000, UpdatedAt := 1000 }).lookup "password"
      ≠ none := by
  decide

end GinApi

namespace GinApi

/-! ## The update statement (C13) -/

/-- One builder step extends the described columns by the field when it is not empty. -/
theorem Builder.add_describes (b : Builder) (cols : List (String × SqlArg)) (col v : String)
    (h : b.Describes cols) :
    (b.add col v).Describes (cols ++ (if v ≠ "" then [(col, SqlArg.str v)] else [])) := by
  obtain ⟨hs, ha, hi⟩ := h
  unfold Builder.add
  by_cases hv : v = ""
  · simp [hv, Builder.Describes, hs, ha, hi]
  · simp only [ne_eq, hv, not_false_eq_true, if_true, Builder.Describes, List.map_append,
      List.map_cons, List.map_nil, List.length_append, List.length_singleton]
    refine ⟨?_, by rw [ha], by rw [hi]⟩
    rw [List.range'_concat, List.zip_append (by simp), hs, hi]
    simp [Nat.add_comm]

/-- The builder of `UpdateUser`, run for a caller whose attached role is a string, yields the
described columns. -/
theorem buildUpdate_describes (now : Int) (upd : UserUpdateRequest) (role : String) :
    ∃ b, buildUpdate now upd (.str role) = some b ∧
      b.Describes (describedColumns now upd (decide (role = "admin"))) := by
  have h0 : (⟨[("updated_at", 1)], [.time now], 2⟩ : Builder).Describes
      [("updated_at", SqlArg.time now)] := by
    simp [Builder.Describes, List.range']
  have h1 := Builder.add_describes _ _ "username" upd.Username h0
  have h2 := Builder.add_describes _ _ "first_name" upd.FirstName h1
  have h3 := Builder.add_describes _ _ "last_name" upd.LastName h2
  have h4 := Builder.add_describes _ _ "email" upd.Email h3
  by_cases hr : upd.Role = ""
  · have e : buildUpdate now upd (.str role) =
        some (((((⟨[("updated_at", 1)], [.time now], 2⟩ : Builder).add "username"
          upd.Username).add "first_name" upd.FirstName).add "last_name" upd.LastName).add
          "email" upd.Email) := by
      unfold buildUpdate
      simp [hr]
    exact ⟨_, e, by simpa [describedColumns, hr] using h4⟩
  · by_cases ha : role = "admin"
    · have h5 := Builder.add_describes _ _ "role" upd.Role h4
      have e : buildUpdate now upd (.str role) =
          some ((((((⟨[("updated_at", 1)], [.time now], 2⟩ : Builder).add "username"
            upd.Username).add "first_name" upd.FirstName).add "last_name" upd.LastName).add
            "email" upd.Email).add "role" upd.Role) := by
        unfold buildUpdate
        simp [hr, CtxVal.assertString, ha]
      exact ⟨_, e, by simpa [describedColumns, hr, ha] using h5⟩
    · exact ⟨_, buildUpdate_non_admin now upd role ha,
        by simpa [describedColumns, hr, ha] using h4⟩

end GinApi

namespace GinApi

/-! ## Roles (C12) -/

/-- The insert either fails and leaves the rows as they are, or appends one row carrying the
given values under the next serial id. -/
theorem insertUser_rows (db db1 : Db) (username firstName lastName email password role : String)
    (t1 t2 : Int) (res : Option Int)
    (h : db.insertUser username firstName lastName email password role t1 t2 = (res, db1)) :
    (res = none ∧ db1.rows = db.rows) ∨
    (res = some db.nextID ∧ ∃ row : User, db1.rows = db.rows ++ [row] ∧ row.ID = db.nextID ∧
      row.Username = username ∧ row.Email = email ∧ row.Password = password ∧
      row.Role = role) := by
  unfold Db.insertUser at h
  split at h
  · simp only at h
    split at h
    · cases h
      exact Or.inr ⟨rfl, _, rfl, rfl, rfl, rfl, rfl, rfl⟩
    · cases h
      exact Or.inl ⟨rfl, rfl⟩
  · cases h
    exact Or.inl ⟨rfl, rfl⟩

/-- Whatever `UserSignup` answers, it leaves the rows as they were or appends exactly one row,
whose role is the role of the request, or `user` when the request gives none. -/
theorem UserSignup_rows (env : Env) (db : Db) (req : Request) (c : Context) :
    (UserSignup env db req c).db.rows = db.rows ∨
    ∃ su row, env.bindSignup req.body = some su ∧
      (UserSignup env db req c).db.rows = db.rows ++ [row] ∧
      row.Username = su.Username ∧ row.Email = su.Email ∧
      row.Role = (if su.Role = "" then "user" else su.Role) := by
  generalize hr : UserSignup env db req c = r
  unfold UserSignup at hr
  split at hr
  · subst hr; exact Or.inl rfl
  · rename_i su hB
    split at hr
    · subst hr; exact Or.inl rfl
    · simp only at hr
      split at hr
      · subst hr; exact Or.inl rfl
      · split at hr
        · subst hr; exact Or.inl rfl
        · split at hr
          · subst hr; exact Or.inl rfl
          · split at hr
            · rename_i db1 hI
              subst hr
              rcases insertUser_rows _ _ _ _ _ _ _ _ _ _ _ hI with ⟨_, h⟩ | ⟨h, _⟩
              · exact Or.inl h
              · cases h
            · rename_i userID db1 hI
              have hrows : ∃ row : User, db1.rows = db.rows ++ [row] ∧
                  row.Username = su.Username ∧ row.Email = su.Email ∧
                  row.Role = (if su.Role = "" then "user" else su.Role) := by
                rcases insertUser_rows _ _ _ _ _ _ _ _ _ _ _ hI with ⟨h, _⟩ | ⟨_, row, h1, _, h2, h3, _, h4⟩
                · cases h
                · exact ⟨row, h1, h2, h3, h4⟩
              obtain ⟨row, h1, h2, h3, h4⟩ := hrows
              split at hr
              · subst hr; exact Or.inr ⟨su, row, hB, h1, h2, h3, h4⟩
              · split at hr <;> (subst hr; exact Or.inr ⟨su, row, hB, h1, h2, h3, h4⟩)

/-- The assignments of a described builder, paired with its arguments, are the described
columns with their values. -/
theorem Builder.Describes.zip_eq (b : Builder) (cols : List (String × SqlArg))
    (h : b.Describes cols) : (b.setParts.map Prod.fst).zip b.args = cols := by
  obtain ⟨hs, ha, _⟩ := h
  rw [hs, ha, List.map_fst_zip _ _ (by simp)]
  exact (List.zip_of_prod rfl rfl).symm

/-- C12 (amended): the role defaults to `user` but is not restricted to an enumeration.
Whatever `UserSignup` answers, it writes at most one account, whose role is the role text of
the request, or `user` when the request gives none. When the signup succeeds, the role stored,
the role of the returned account and the `role` of the payload signed into the session token
are all that same text, hence all `user` when the request gives no role. For a caller of
`UpdateUser` with an attached string role, every statement executed assigns `role` only for an
admin and only to the non-empty role text of the request, as is. -/
theorem C12_role_default_and_passthrough (env : Env) (db : Db) (req : Request) (c : Context)
    (role : String) (hrole : c.Get "role" = some (.str role)) :
    ((UserSignup env db req c).db.rows = db.rows ∨
      ∃ su row, env.bindSignup req.body = some su ∧
        (UserSignup env db req c).db.rows = db.rows ++ [row] ∧
        row.Role = (if su.Role = "" then "user" else su.Role)) ∧
    ((UserSignup env db req c).response.status = 201 →
      ∃ su row token refresh user,
        env.bindSignup req.body = some su ∧
        (UserSignup env db req c).db.rows = db.rows ++ [row] ∧
        (UserSignup env db req c).response =
          ⟨201, .auth token refresh user "User created successfully"⟩ ∧
        row.Role = (if su.Role = "" then "user" else su.Role) ∧
        user.Role = (if su.Role = "" then "user" else su.Role) ∧
        (∃ p, env.jwt.SignedString "HS256" p (jwtSecret env) = some token ∧
          p.lookup "role" = some (JVal.str (if su.Role = "" then "user" else su.Role))) ∧
        (su.Role = "" → row.Role = "user" ∧ user.Role = "user" ∧
          ∃ p, env.jwt.SignedString "HS256" p (jwtSecret env) = some token ∧
            p.lookup "role" = some (JVal.str "user"))) ∧
    (∀ st, Call.Exec st ∈ (UpdateUser env db req c).calls →
      ∃ upd b userID, env.bindUpdate req.body = some upd ∧
        buildUpdate env.now upd (.str role) = some b ∧
        st = ⟨renderUpdate b.setParts b.argIndex, b.args ++ [.int userID]⟩ ∧
        ∀ v, ("role", v) ∈ (b.setParts.map Prod.fst).zip b.args →
          v = SqlArg.str upd.Role ∧ upd.Role ≠ "" ∧ role = "admin") := by
  refine ⟨?_, ?_, ?_⟩
  · rcases UserSignup_rows env db req c with h | ⟨su, row, hB, h1, _, _, h4⟩
    · exact Or.inl h
    · exact Or.inr ⟨su, row, hB, h1, h4⟩
  · intro h201
    obtain ⟨su, hashed, userID, db1, token, refresh, hB, _, _, _, _, hI, hT, _, hresp, hdb⟩ :=
      UserSignup_created env db req c h201
    have hrow : ∃ row : User, db1.rows = db.rows ++ [row] ∧
        row.Role = (if su.Role = "" then "user" else su.Role) := by
      rcases insertUser_rows _ _ _ _ _ _ _ _ _ _ _ hI with ⟨h, _⟩ | ⟨_, row, h1, _, _, _, _, h4⟩
      · cases h
      · exact ⟨row, h1, h4⟩
    obtain ⟨row, hrows, hrr⟩ := hrow
    have hp : ∃ p, env.jwt.SignedString "HS256" p (jwtSecret env) = some token ∧
        p.lookup "role" = some (JVal.str (if su.Role = "" then "user" else su.Role)) := by
      unfold GenerateJWT at hT
      exact ⟨_, hT, by simp [JWTClaims.toMap, List.lookup]⟩
    refine ⟨su, row, token, refresh, _, hB, by rw [hdb, hrows], hresp, hrr, rfl, hp, ?_⟩
    intro hempty
    simp only [hempty, if_true] at hrr hp ⊢
    exact ⟨hrr, trivial, hp⟩
  · intro st hst
    obtain ⟨userID, upd, cu, cr, b, _, hB, _, hcr, hb, _, hst2⟩ :=
      UpdateUser_exec_args env db req c st hst
    rw [hrole] at hcr
    cases hcr
    obtain ⟨b2, hb2, hdesc⟩ := buildUpdate_describes env.now upd role
    rw [hb] at hb2
    cases hb2
    refine ⟨upd, b, userID, hB, hb, hst2, ?_⟩
    intro v hv
    rw [Builder.Describes.zip_eq b _ hdesc] at hv
    unfold describedColumns at hv
    simp only [List.mem_append, List.mem_singleton, Prod.mk.injEq] at hv
    rcases hv with ((((hv | hv) | hv) | hv) | hv) | hv
    · exact absurd hv.1 (by decide)
    · split at hv
      · simp at hv
      · simp at hv
    · split at hv
      · simp at hv
      · simp at hv
    · split at hv
      · simp at hv
      · simp at hv
    · split at hv
      · simp at hv
      · simp at hv
    · split at hv
      · rename_i hc
        simp only [List.mem_singleton, Prod.mk.injEq, true_and] at hv
        exact ⟨hv, hc.1, by simpa using hc.2⟩
      · simp at hv

/-- C12 witness: `carol` signs up without a role; the row stored and the account returned both
have the role `user`. -/
theorem C12_role_default_and_passthrough_witness :
    ∃ row token refresh user,
      (UserSignup (signupEnv ⟨"carol", "", "", "carol@x.com", "secret123", ""⟩) sampleDb
        (sampleRequest "POST" [] [] "") (attached "7" "5" "admin")).db.rows
        = sampleDb.rows ++ [row] ∧
      (UserSignup (signupEnv ⟨"carol", "", "", "carol@x.com", "secret123", ""⟩) sampleDb
        (sampleRequest "POST" [] [] "") (attached "7" "5" "admin")).response
        = ⟨201, .auth token refresh user "User created successfully"⟩ ∧
      row.Role = "user" ∧ user.Role = "user" := by
  obtain ⟨su, row, token, refresh, user, hB, hrows, hresp, _, _, _, hdef⟩ :=
    (C12_role_default_and_passthrough
      (signupEnv ⟨"carol", "", "", "carol@x.com", "secret123", ""⟩) sampleDb
      (sampleRequest "POST" [] [] "") (attached "7" "5" "admin") "admin" (by decide)).2.1
      (by decide)
  have hsu : su = ⟨"carol", "", "", "carol@x.com", "secret123", ""⟩ := by
    simpa [signupEnv] using hB.symm
  subst hsu
  exact ⟨row, token, refresh, user, hrows, hresp, (hdef rfl).1, (hdef rfl).2.1⟩

/-- C12 counterexample: roles outside the enumeration are written. `dave` signs up with the
role `superuser` and is answered 201 with that role, which is also the role of the stored row;
and the admin 5 updates account 7 with the role `owner`, which is then the role of the stored
row. -/
theorem C12_counterexample_roles_outside_enumeration :
    (UserSignup (signupEnv ⟨"dave", "", "", "dave@x.com", "secret123", "superuser"⟩) sampleDb
      (sampleRequest "POST" [] [] "") ⟨[], []⟩).response =
      ⟨201, .auth "tok-dave" "ref-carol"
        { ID := 8, Username := "dave", FirstName := "", LastName := "", Email := "dave@x.com",
          Password := "", Role := "superuser", SessionID := "", SessionToken := "",
          RefreshToken := "", CreatedAt := 1000, UpdatedAt := 1000 }
        "User created successfully"⟩ ∧
    (UserSignup (signupEnv ⟨"dave", "", "", "dave@x.com", "secret123", "superuser"⟩) sampleDb
      (sampleRequest "POST" [] [] "") ⟨[], []⟩).db.rows.map (fun r => r.Role) =
      ["admin", "user", "superuser"] ∧
    (UpdateUser { sampleEnv with bindUpdate := fun _ => some ⟨"", "", "", "", "owner"⟩ } sampleDb
      (sampleRequest "PUT" [] [] "") (attached "7" "5" "admin")).calls =
      [.Exec ⟨"UPDATE users SET updated_at = $1, role = $2 WHERE id = $3",
        [.time 1000, .str "owner", .int 7]⟩] ∧
    (UpdateUser { sampleEnv with bindUpdate := fun _ => some ⟨"", "", "", "", "owner"⟩ } sampleDb
      (sampleRequest "PUT" [] [] "") (attached "7" "5" "admin")).db.rows.map (fun r => r.Role) =
      ["admin", "owner"] ∧
    "superuser" ≠ "user" ∧ "superuser" ≠ "admin" ∧ "owner" ≠ "user" ∧ "owner" ≠ "admin" := by
  decide

end GinApi

namespace GinApi

/-! ## The update statement is well formed (C13) -/

/-- The column names of the described columns come from the fixed set. -/
theorem describedColumns_names (now : Int) (upd : UserUpdateRequest) (isAdmin : Bool)
    (col : String) (h : col ∈ (describedColumns now upd isAdmin).map Prod.fst) :
    col ∈ ["updated_at", "username", "first_name", "last_name", "email", "role"] := by
  unfold describedColumns at h
  simp only [List.map_append, List.mem_append, List.mem_map] at h
  rcases h with ((((h | h) | h) | h) | h) | h <;> obtain ⟨p, hp, rfl⟩ := h
  · simp at hp; subst hp; simp
  · split at hp <;> simp at hp; subst hp; simp
  · split at hp <;> simp at hp; subst hp; simp
  · split at hp <;> simp at hp; subst hp; simp
  · split at hp <;> simp at hp; subst hp; simp
  · split at hp <;> simp at hp; subst hp; simp

/-- Index by index, a described builder assigns the k-th column (from 0) to the placeholder
k + 1 and binds its value as the k-th argument. -/
theorem Builder.Describes.nth (b : Builder) (cols : List (String × SqlArg))
    (h : b.Describes cols) (k : Nat) (col : String) (v : SqlArg)
    (hk : cols[k]? = some (col, v)) :
    b.setParts[k]? = some (col, k + 1) ∧ b.args[k]? = some v := by
  obtain ⟨hs, ha, _⟩ := h
  have hlt : k < cols.length := by
    rcases Nat.lt_or_ge k cols.length with h1 | h1
    · exact h1
    · rw [List.getElem?_eq_none h1] at hk; cases hk
  have hget : cols[k] = (col, v) := by
    rw [List.getElem?_eq_getElem hlt] at hk
    exact Option.some.inj hk
  constructor
  · rw [hs, List.getElem?_zip_eq_some]
    simp [List.getElem?_range', hlt, Nat.add_comm, hget]
  · rw [ha]
    simp [hk]

/-- C13: the dynamically built UPDATE statement is well formed. For every `UpdateUser` request
with a parseable path id, a bound body and an attached string role, the builder yields a state
`b` such that: the columns are the described ones (`updated_at`, then `username`,
`first_name`, `last_name`, `email`, `role` in this order, exactly for the non-empty fields, the
role only for an admin); the k-th assignment (k from 1) uses placeholder `$k` and the k-th
argument is that column's value, the first being the update time; there are as many arguments
as assignments before the path id is appended; the `WHERE` placeholder is the total number of
arguments and the last argument is the integer path id; every column name is one of the six
fixed names; and every statement executed is the text rendered from these assignments with
the arguments in this order. -/
theorem C13_update_statement_well_formed (env : Env) (db : Db) (req : Request) (c : Context)
    (upd : UserUpdateRequest) (role : String) (userID : Int)
    (hA : Atoi (c.Param "id") = some userID)
    (hB : env.bindUpdate req.body = some upd)
    (hrole : c.Get "role" = some (.str role)) :
    ∃ b, buildUpdate env.now upd (.str role) = some b ∧
      (b.setParts.map Prod.fst).zip b.args =
        describedColumns env.now upd (decide (role = "admin")) ∧
      (∀ k col v, (describedColumns env.now upd (decide (role = "admin")))[k]? = some (col, v) →
        b.setParts[k]? = some (col, k + 1) ∧ (b.args ++ [SqlArg.int userID])[k]? = some v) ∧
      (b.setParts[0]? = some ("updated_at", 1) ∧
        (b.args ++ [SqlArg.int userID])[0]? = some (SqlArg.time env.now)) ∧
      b.args.length = b.setParts.length ∧
      b.argIndex = (b.args ++ [SqlArg.int userID]).length ∧
      (b.args ++ [SqlArg.int userID]).getLast? = some (SqlArg.int userID) ∧
      (∀ p ∈ b.setParts,
        p.1 ∈ ["updated_at", "username", "first_name", "last_name", "email", "role"]) ∧
      (∀ st, Call.Exec st ∈ (UpdateUser env db req c).calls →
        st.sql = "UPDATE users SET " ++
            ", ".intercalate (b.setParts.map (fun p => p.1 ++ " = $" ++ toString p.2)) ++
            " WHERE id = $" ++ toString (b.args ++ [SqlArg.int userID]).length ∧
        st.args = b.args ++ [SqlArg.int userID]) := by
  obtain ⟨b, hb, hdesc⟩ := buildUpdate_describes env.now upd role
  have hzip := Builder.Describes.zip_eq b _ hdesc
  have hnth : ∀ k col v,
      (describedColumns env.now upd (decide (role = "admin")))[k]? = some (col, v) →
      b.setParts[k]? = some (col, k + 1) ∧ (b.args ++ [SqlArg.int userID])[k]? = some v := by
    intro k col v hk
    obtain ⟨h1, h2⟩ := Builder.Describes.nth b _ hdesc k col v hk
    refine ⟨h1, ?_⟩
    have hlt : k < b.args.length := by
      rcases Nat.lt_or_ge k b.args.length with h3 | h3
      · exact h3
      · rw [List.getElem?_eq_none h3] at h2; cases h2
    rw [List.getElem?_append_left hlt]
    exact h2
  have hlen : b.args.length = b.setParts.length := by
    rw [hdesc.1, hdesc.2.1]
    simp
  have hidx : b.argIndex = (b.args ++ [SqlArg.int userID]).length := by
    rw [hdesc.2.2, hdesc.2.1]
    simp
  refine ⟨b, hb, hzip, hnth, ?_, hlen, hidx, by simp, ?_, ?_⟩
  · exact hnth 0 "updated_at" (SqlArg.time env.now) (by simp [describedColumns])
  · intro p hp
    apply describedColumns_names env.now upd (decide (role = "admin"))
    have : p.1 ∈ b.setParts.map Prod.fst := List.mem_map_of_mem _ hp
    rw [hdesc.1, List.map_fst_zip _ _ (by simp)] at this
    exact this
  · intro st hst
    obtain ⟨userID1, upd1, cu, cr, b1, hA1, hB1, _, hcr, hb1, _, hst2⟩ :=
      UpdateUser_exec_args env db req c st hst
    rw [hA] at hA1
    rw [hB] at hB1
    rw [hrole] at hcr
    cases hA1
    cases hB1
    cases hcr
    rw [hb] at hb1
    cases hb1
    rw [hst2, ← hidx]
    exact ⟨rfl, rfl⟩

/-- C13 witness: the admin 5 updates account 7 with a first name, an email and a role; the
statement executed is `UPDATE users SET updated_at = $1, first_name = $2, email = $3, role = $4
WHERE id = $5` with the arguments in this order and the path id last. -/
theorem C13_update_statement_well_formed_witness :
    (UpdateUser
        { sampleEnv with bindUpdate := fun _ => some ⟨"", "Bob", "", "b@x.com", "admin"⟩ }
        sampleDb (sampleRequest "PUT" [] [] "") (attached "7" "5" "admin")).calls =
      [.Exec ⟨"UPDATE users SET updated_at = $1, first_name = $2, email = $3, role = $4 WHERE id = $5",
        [.time 1000, .str "Bob", .str "b@x.com", .str "admin", .int 7]⟩] ∧
    ∃ b, buildUpdate 1000 ⟨"", "Bob", "", "b@x.com", "admin"⟩ (.str "admin") = some b ∧
      b.argIndex = (b.args ++ [SqlArg.int 7]).length ∧
      (b.args ++ [SqlArg.int 7]).getLast? = some (SqlArg.int 7) := by
  obtain ⟨b, hb, _, _, _, _, hidx, hlast, _, _⟩ :=
    C13_update_statement_well_formed
      { sampleEnv with bindUpdate := fun _ => some ⟨"", "Bob", "", "b@x.com", "admin"⟩ }
      sampleDb (sampleRequest "PUT" [] [] "") (attached "7" "5" "admin")
      ⟨"", "Bob", "", "b@x.com", "admin"⟩ "admin" 7 (by decide) rfl (by decide)
  exact ⟨by decide, b, hb, hidx, hlast⟩

end GinApi

namespace GinApi

/-! ## Refresh tokens presented as session tokens (C14) -/

/-- The payload of a refresh token decodes into session claims with only the account id and
the expiry set. -/
theorem ofMap_refresh (e : Int) (uid : String) :
    JWTClaims.ofMap [("exp", JVal.num e), ("type", JVal.str "refresh"), ("user_id", JVal.str uid)]
      = some { UserID := uid, Email := "", Username := "", Role := "", ExpiresAt := e,
               IssuedAt := 0, NotBefore := 0 } := by
  simp [JWTClaims.ofMap, strField, numField, List.lookup]

/-- C14: `JWTAuth` does not distinguish refresh tokens from session tokens. Let the token
library honour its contract. For every account `u`, the token returned by
`GenerateRefreshToken` at time `env0.now`, presented as `Bearer <token>` under the same library
and secret at a time before `env0.now + 7 days`, is accepted by `JWTAuth`, which attaches
`user_id = Itoa u.ID` and the empty string as email, username and role; the `type` marker plays
no part. Such a request passes the authentication stage: a chain protected by `JWTAuth` alone
runs its handler, and a chain that also has `AdminOnly` ends there with 403
`Admin access required`. -/
theorem C14_refresh_token_passes_JWTAuth (env0 env : Env) (db : Db) (u : User) (tok : String)
    (req : Request) (c : Context)
    (hlib : env.jwt = env0.jwt) (hsecret : jwtSecret env = jwtSecret env0)
    (hcontract : env0.jwt.RoundTrips)
    (hgen : GenerateRefreshToken env0 u = some tok)
    (hhdr : req.GetHeader "Authorization" = "Bearer " ++ tok)
    (hwin : env.now < env0.now + 3600 * 24 * 7) :
    JWTAuth env req c =
      .next ((((c.Set "user_id" (.str (Itoa u.ID))).Set "email" (.str "")).Set "username"
        (.str "")).Set "role" (.str "")) ∧
    (∀ (name : String) (h : Env → Db → Request → Context → Result) (ran : List String),
      runChain env db req [("JWTAuth", JWTAuth)] (some (name, h)) c ran =
        ⟨(h env db req ((((c.Set "user_id" (.str (Itoa u.ID))).Set "email" (.str "")).Set
            "username" (.str "")).Set "role" (.str ""))).response,
          ran ++ ["JWTAuth", name],
          (h env db req ((((c.Set "user_id" (.str (Itoa u.ID))).Set "email" (.str "")).Set
            "username" (.str "")).Set "role" (.str ""))).calls,
          (h env db req ((((c.Set "user_id" (.str (Itoa u.ID))).Set "email" (.str "")).Set
            "username" (.str "")).Set "role" (.str ""))).db,
          (((c.Set "user_id" (.str (Itoa u.ID))).Set "email" (.str "")).Set "username"
            (.str "")).Set "role" (.str "")⟩) ∧
    (∀ (name : String) (h : Env → Db → Request → Context → Result) (ran : List String),
      runChain env db req [("JWTAuth", JWTAuth), ("AdminOnly", AdminOnly)] (some (name, h)) c ran
        = ⟨⟨403, .error "Forbidden" "Admin access required"⟩, ran ++ ["JWTAuth", "AdminOnly"],
            [], db,
            (((c.Set "user_id" (.str (Itoa u.ID))).Set "email" (.str "")).Set "username"
              (.str "")).Set "role" (.str "")⟩) := by
  unfold GenerateRefreshToken at hgen
  obtain ⟨hdec, hver⟩ := hcontract _ _ _ _ hgen
  rw [← hlib, ← hsecret] at hver
  rw [← hlib] at hdec
  have hvalid : JWTClaims.Valid
      { UserID := Itoa u.ID, Email := "", Username := "", Role := "",
        ExpiresAt := env0.now + 604800, IssuedAt := 0, NotBefore := 0 } env.now = true := by
    have h3 : env.now < env0.now + 604800 := by omega
    simp [JWTClaims.Valid, h3]
  have hj : JWTAuth env req c =
      .next ((((c.Set "user_id" (.str (Itoa u.ID))).Set "email" (.str "")).Set "username"
        (.str "")).Set "role" (.str "")) := by
    rw [JWTAuth_bearer env req c tok hhdr]
    simp [ParseWithClaims, hdec, ofMap_refresh, isHMAC, hvalid, hver]
  have hr : ((((c.Set "user_id" (.str (Itoa u.ID))).Set "email" (.str "")).Set "username"
      (.str "")).Set "role" (.str "")).Get "role" ≠ some (.str "admin") := by
    simp [Context.Set, Context.Get, List.lookup]
  refine ⟨hj, ?_, ?_⟩
  · intro name h ran
    simp [runChain, hj]
  · intro name h ran
    exact (adminChain_spec env db req name h c ran).2.1 _ hj hr

/-- C14 witness: the refresh token issued to the admin account 5 at time 900, presented at
time 1000, is accepted by `JWTAuth` with user id 5 and an empty role; `GET /api/v1/profile`
runs its handler and `GET /api/v1/users` is answered 403 by `AdminOnly`. -/
theorem C14_refresh_token_passes_JWTAuth_witness :
    GenerateRefreshToken { sampleEnv with jwt := tableJwt signupTokens, now := 900 }
      (sampleUser 5 "root" "admin") = some "ref-root" ∧
    JWTAuth { sampleEnv with jwt := tableJwt signupTokens }
        (sampleRequest "GET" ["api", "v1", "profile"] [("Authorization", "Bearer ref-root")] "")
        ⟨[], []⟩ =
      .next (((((Context.mk [] []).Set "user_id" (.str "5")).Set "email" (.str "")).Set
        "username" (.str "")).Set "role" (.str "")) ∧
    (serve { sampleEnv with jwt := tableJwt signupTokens } sampleDb
      (sampleRequest "GET" ["api", "v1", "profile"] [("Authorization", "Bearer ref-root")]
        "")).stages = ["CORS", "Logger", "Recovery", "JWTAuth", "GetProfile"] ∧
    (serve { sampleEnv with jwt := tableJwt signupTokens } sampleDb
      (sampleRequest "GET" ["api", "v1", "users"] [("Authorization", "Bearer ref-root")]
        "")).response = ⟨403, .error "Forbidden" "Admin access required"⟩ :=
  ⟨by decide,
   (C14_refresh_token_passes_JWTAuth
      { sampleEnv with jwt := tableJwt signupTokens, now := 900 }
      { sampleEnv with jwt := tableJwt signupTokens } sampleDb (sampleUser 5 "root" "admin")
      "ref-root"
      (sampleRequest "GET" ["api", "v1", "profile"] [("Authorization", "Bearer ref-root")] "")
      ⟨[], []⟩ rfl rfl (tableJwt_roundTrips signupTokens (by decide)) (by decide) (by decide)
      (by decide)).1,
   by decide, by decide⟩

end GinApi
